import Mathlib

/-!
# Verification of the MinuteMeet meeting-analysis engine

Shallow embedding of `backend/ai_service.py` (class `MeetingAI`).

Conventions of the embedding:
* Python strings are `Str := List Char`; Python floats are `ℚ` (the code only
  ever combines decimal literals, integer counts and exact divisions).
* The two black-box collaborators are parameters:
  - `summarizer : Option Str` is the outcome of a call into the abstractive
    BART summarization pipeline (`none` models the call raising, `some s`
    models it returning summary text `s`);
  - `emb : Option (Str → Str → ℚ)` models the sentence-embedding model:
    `none` means `sentence_model.encode` raises, `some cos` means it works and
    `cos a b` is the cosine similarity of the embeddings of `a` and `b`.
* `now : ℕ` models `int(time.time() * 1000)`, used only inside action-item ids.
* The constructor forces `self.mock_mode = False` (it is set to `True` only
  when model loading fails), so the `mock_mode` branches are dead code on the
  production path and are not part of the embedding.
* Python regular expressions are embedded by direct scanners specialised to
  the exact patterns appearing in the source (all of the form
  `literal-prefix (.+?)(?:\.|$)`, alternations of literal words, or digit
  groups), with `re.IGNORECASE` where the source passes it, Python's
  leftmost/non-overlapping scanning, and lazy/greedy semantics as in `re`.
-/

set_option maxRecDepth 8000

abbrev Str := List Char

/-- Shorthand turning a Lean string literal into the `List Char` representation. -/
def str (x : String) : Str := x.toList

/-- Python `s.lower()` (relevant characters are ASCII). -/
def pyLower (s : Str) : Str := s.map Char.toLower

/-- `needle` occurs at the start of `hay` (case-sensitive). -/
def isPrefixC : Str → Str → Bool
  | [], _ => true
  | _ :: _, [] => false
  | a :: as, b :: bs => a == b && isPrefixC as bs

/-- Python substring test `needle in hay` (case-sensitive; callers lower
both sides exactly where the source does). -/
def pyIn (needle : Str) : Str → Bool
  | [] => isPrefixC needle []
  | c :: t => isPrefixC needle (c :: t) || pyIn needle t

/-- Python `s.split()`: split on whitespace runs, dropping empty pieces.
`acc` is the current word, reversed. -/
def pySplitAux (acc : Str) : Str → List Str
  | [] => if acc.isEmpty then [] else [acc.reverse]
  | c :: t =>
    if c.isWhitespace then
      if acc.isEmpty then pySplitAux [] t else acc.reverse :: pySplitAux [] t
    else pySplitAux (c :: acc) t

/-- Python `s.split()` (no separator argument). -/
def pySplit (s : Str) : List Str := pySplitAux [] s

/-- Fuel-driven body of `pySplitOn`; consumes at least one character per step,
so `fuel = length + 1` always suffices. -/
def pySplitOnF (sep : Str) : Nat → Str → Str → List Str
  | 0, acc, rest => [acc.reverse ++ rest]
  | _ + 1, acc, [] => [acc.reverse]
  | fuel + 1, acc, c :: t =>
    if isPrefixC sep (c :: t) then
      acc.reverse :: pySplitOnF sep fuel [] ((c :: t).drop sep.length)
    else pySplitOnF sep fuel (c :: acc) t

/-- Python `s.split(sep)` for a non-empty literal separator. -/
def pySplitOn (sep s : Str) : List Str := pySplitOnF sep (s.length + 1) [] s

/-- Python `s.strip()`. -/
def pyStrip (s : Str) : Str :=
  ((s.dropWhile Char.isWhitespace).reverse.dropWhile Char.isWhitespace).reverse

/-- Python `str.title()` restricted to ASCII: a letter is uppercased when the
previous character is not a letter, lowercased otherwise. -/
def pyTitleAux (prevAlpha : Bool) : Str → Str
  | [] => []
  | c :: t =>
    (if c.isAlpha then (if prevAlpha then c.toLower else c.toUpper) else c) ::
      pyTitleAux c.isAlpha t

/-- Python `s.title()`. -/
def pyTitle (s : Str) : Str := pyTitleAux false s

/-- `'. '.join`-style joining. -/
def joinSep (sep : Str) : List Str → Str
  | [] => []
  | [x] => x
  | x :: y :: t => x ++ sep ++ joinSep sep (y :: t)

/-- `sum(1 for keyword in kws if keyword in s)`: number of keywords of `kws`
present as substrings of `s`. -/
def countPresent (kws : List Str) (s : Str) : Nat :=
  (kws.filter (fun k => pyIn k s)).length

/-- `any(w in s for w in ws)`. -/
def anyPresent (ws : List Str) (s : Str) : Bool := ws.any (fun w => pyIn w s)

/-- Case-insensitive prefix match: `pat` (given lowercase) matches the start
of `s` when each character of `s` lowercases to the corresponding `pat` char. -/
def ciPrefixMatch : Str → Str → Bool
  | [], _ => true
  | _ :: _, [] => false
  | p :: ps, c :: cs => p == c.toLower && ciPrefixMatch ps cs

/-- Continuation of `lazyCapture`: the capture grows until the first `'.'`
(consumed by the `(?:\.|$)` group) or the end of input; a newline aborts the
match because `.` does not match `'\n'`. `acc` is the capture so far, reversed. -/
def lazyCaptureGo (acc : Str) : Str → Option (Str × Str)
  | [] => some (acc.reverse, [])
  | c :: cs =>
    if c = '.' then some (acc.reverse, cs)
    else if c = '\n' then none
    else lazyCaptureGo (c :: acc) cs

/-- Lazy group `(.+?)(?:\.|$)`: at least one character, then the shortest
extension ending just before a `'.'` or at the end of the string. Returns the
captured group and the remainder after the whole match. -/
def lazyCapture : Str → Option (Str × Str)
  | [] => none
  | c :: cs => if c = '\n' then none else lazyCaptureGo [c] cs

/-- `re.findall(pat + "(.+?)(?:\.|$)", s, re.IGNORECASE)`: left-to-right,
non-overlapping; on a failed attempt the scan advances one character. -/
def findCapturesF (pat : Str) : Nat → Str → List Str
  | 0, _ => []
  | fuel + 1, s =>
    match s with
    | [] => []
    | _ :: t =>
      if ciPrefixMatch pat s then
        match lazyCapture (s.drop pat.length) with
        | some (cap, rest) => cap :: findCapturesF pat fuel rest
        | none => findCapturesF pat fuel t
      else findCapturesF pat fuel t

/-- All captures of the action pattern with literal prefix `pat` in `s`. -/
def findCaptures (pat : Str) (s : Str) : List Str := findCapturesF pat (s.length + 1) s

/-- First alternative of `alts` (patterns given lowercase, tried in order)
matching at the start of `s`; returns the matched slice of `s` in original
case, as `re` groups do under `IGNORECASE`. -/
def matchAltAt (alts : List Str) (s : Str) : Option Str :=
  alts.findSome? (fun a => if ciPrefixMatch a s then some (s.take a.length) else none)

/-- `re.search` driver: try the position matcher `patAt` at every position,
leftmost first. -/
def searchPatF (patAt : Str → Option Str) : Nat → Str → Option Str
  | 0, _ => none
  | fuel + 1, s =>
    match patAt s with
    | some g => some g
    | none =>
      match s with
      | [] => none
      | _ :: t => searchPatF patAt fuel t

/-- `re.search` returning group 1 of the first match of `patAt` in `s`. -/
def searchPat (patAt : Str → Option Str) (s : Str) : Option Str :=
  searchPatF patAt (s.length + 1) s

/-- Greedy `\d{1,2}` with backtracking: candidate (digits, rest) splits in the
order `re` tries them (two digits first, then one). -/
def d12Splits : Str → List (Str × Str)
  | [] => []
  | [a] => if a.isDigit then [([a], [])] else []
  | a :: b :: t =>
    if a.isDigit && b.isDigit then [([a, b], t), ([a], b :: t)]
    else if a.isDigit then [([a], b :: t)] else []

/-- Exactly `n` digits (`\d{n}`); returns them and the rest. -/
def takeExactDigits : Nat → Str → Option (Str × Str)
  | 0, s => some ([], s)
  | _ + 1, [] => none
  | n + 1, c :: t =>
    if c.isDigit then (takeExactDigits n t).map (fun p => (c :: p.1, p.2))
    else none

/-- Position matcher for `(\d{1,2}/\d{1,2})` (group 1 at this position). -/
def slashD12At (s : Str) : Option Str :=
  (d12Splits s).findSome? (fun p =>
    match p.2 with
    | '/' :: r2 => (d12Splits r2).findSome? (fun q => some (p.1 ++ '/' :: q.1))
    | _ => none)

/-- Position matcher for `(\d{1,2}-\d{1,2})`. -/
def dashD12At (s : Str) : Option Str :=
  (d12Splits s).findSome? (fun p =>
    match p.2 with
    | '-' :: r2 => (d12Splits r2).findSome? (fun q => some (p.1 ++ '-' :: q.1))
    | _ => none)

/-- Position matcher for `(\d{1,2}th|\d{1,2}st|\d{1,2}nd|\d{1,2}rd)`:
alternatives in order, greedy digits inside each. -/
def ordinalD12At (s : Str) : Option Str :=
  [str "th", str "st", str "nd", str "rd"].findSome? (fun suf =>
    (d12Splits s).findSome? (fun p =>
      if ciPrefixMatch suf p.2 then some (p.1 ++ p.2.take suf.length) else none))

/-- Position matcher for `(\d{4}-\d{2}-\d{2})`. -/
def isoDateAt (s : Str) : Option Str :=
  match takeExactDigits 4 s with
  | some (d1, '-' :: r1) =>
    match takeExactDigits 2 r1 with
    | some (d2, '-' :: r2) =>
      match takeExactDigits 2 r2 with
      | some (d3, _) => some (d1 ++ '-' :: d2 ++ '-' :: d3)
      | none => none
    | _ => none
  | _ => none

/-- Position matcher for `(\d{1,2}/\d{1,2}/\d{4})`. -/
def slashYearAt (s : Str) : Option Str :=
  (d12Splits s).findSome? (fun p =>
    match p.2 with
    | '/' :: r2 =>
      (d12Splits r2).findSome? (fun q =>
        match q.2 with
        | '/' :: r3 =>
          match takeExactDigits 4 r3 with
          | some (y, _) => some (p.1 ++ '/' :: q.1 ++ '/' :: y)
          | none => none
        | _ => none)
    | _ => none)

/-- Position matcher `pre (alt1|…|altn)`: literal prefix then an alternation
of literal words. -/
def preAltAt (pre : Str) (alts : List Str) (s : Str) : Option Str :=
  if ciPrefixMatch pre s then matchAltAt alts (s.drop pre.length) else none

/-- `\w` character class. -/
def isWordChar (c : Char) : Bool := c.isAlphanum || c = '_'

/-- Generic `re.findall` driver over a position matcher returning the group
and the remainder after the whole match (which always consumes at least one
character for the patterns used here). -/
def findAllPatF (patAt : Str → Option (Str × Str)) : Nat → Str → List Str
  | 0, _ => []
  | fuel + 1, s =>
    match patAt s with
    | some (g, rest) => g :: findAllPatF patAt fuel rest
    | none =>
      match s with
      | [] => []
      | _ :: t => findAllPatF patAt fuel t

/-- `re.findall` of the single-group pattern `patAt` over `s`. -/
def findAllPat (patAt : Str → Option (Str × Str)) (s : Str) : List Str :=
  findAllPatF patAt (s.length + 1) s

/-- Position matcher for `(\d+%)`: a maximal digit run followed by `'%'`
(shorter runs cannot be followed by `'%'`, so greediness needs no backtrack). -/
def digitsPercentAt (s : Str) : Option (Str × Str) :=
  let run := s.takeWhile Char.isDigit
  match s.drop run.length with
  | '%' :: rest => if run.isEmpty then none else some (run ++ ['%'], rest)
  | _ => none

/-- Position matcher for `(\$\d+)`. -/
def dollarAt (s : Str) : Option (Str × Str) :=
  match s with
  | '$' :: r =>
    let run := r.takeWhile Char.isDigit
    if run.isEmpty then none else some ('$' :: run, r.drop run.length)
  | _ => none

/-- Position matcher for `(\d+ lit)` (e.g. `(\d+ thousand)`). -/
def digitsLiteralAt (lit : Str) (s : Str) : Option (Str × Str) :=
  let run := s.takeWhile Char.isDigit
  if run.isEmpty then none
  else
    let rest := s.drop run.length
    if ciPrefixMatch lit rest then some (run ++ rest.take lit.length, rest.drop lit.length)
    else none

/-- Position matcher for `(\d+/\d+)` (unbounded digit runs). -/
def slashDigitsAt (s : Str) : Option (Str × Str) :=
  let run := s.takeWhile Char.isDigit
  if run.isEmpty then none
  else
    match s.drop run.length with
    | '/' :: r2 =>
      let run2 := r2.takeWhile Char.isDigit
      if run2.isEmpty then none else some (run ++ '/' :: run2, r2.drop run2.length)
    | _ => none

/-- Position matcher for `(\w+ \d+)`. -/
def wordSpaceDigitsAt (s : Str) : Option (Str × Str) :=
  let run := s.takeWhile isWordChar
  if run.isEmpty then none
  else
    match s.drop run.length with
    | ' ' :: r2 =>
      let run2 := r2.takeWhile Char.isDigit
      if run2.isEmpty then none else some (run ++ ' ' :: run2, r2.drop run2.length)
    | _ => none

/-- Position matcher for `(\w+day)`: a word run containing `day`; greedy
`\w+` picks the rightmost `day` occurrence inside the run. `k` counts down
candidate cut positions. -/
def wordDayCut (run : Str) : Nat → Option Nat
  | 0 => none
  | k + 1 =>
    if ciPrefixMatch (str "day") (run.drop (k + 1)) then some (k + 1)
    else wordDayCut run k

def wordDayAt (s : Str) : Option (Str × Str) :=
  let run := s.takeWhile isWordChar
  if run.length < 4 then none
  else
    match wordDayCut run (run.length - 3) with
    | some k => some (run.take (k + 3), s.drop (k + 3))
    | none => none

/-- Lazy `.*?` followed by a maximal `\w+` group: scan for the first word
character on the current line. -/
def scanForWordF : Nat → Str → Option (Str × Str)
  | 0, _ => none
  | _ + 1, [] => none
  | fuel + 1, c :: t =>
    if isWordChar c then
      some ((c :: t).takeWhile isWordChar, (c :: t).dropWhile isWordChar)
    else if c = '\n' then none
    else scanForWordF fuel t

def scanForWord (s : Str) : Option (Str × Str) := scanForWordF (s.length + 1) s

/-- Lazy `.*?` followed by a maximal `\d+` group. -/
def scanForDigitsF : Nat → Str → Option (Str × Str)
  | 0, _ => none
  | _ + 1, [] => none
  | fuel + 1, c :: t =>
    if c.isDigit then
      some ((c :: t).takeWhile Char.isDigit, (c :: t).dropWhile Char.isDigit)
    else if c = '\n' then none
    else scanForDigitsF fuel t

def scanForDigits (s : Str) : Option (Str × Str) := scanForDigitsF (s.length + 1) s

/-- Lazy `.*?` followed by `(\d+%)`. -/
def scanForDigitsPercentF : Nat → Str → Option (Str × Str)
  | 0, _ => none
  | _ + 1, [] => none
  | fuel + 1, c :: t =>
    match digitsPercentAt (c :: t) with
    | some r => some r
    | none => if c = '\n' then none else scanForDigitsPercentF fuel t

def scanForDigitsPercent (s : Str) : Option (Str × Str) :=
  scanForDigitsPercentF (s.length + 1) s

/-- Position matcher for `pre.*?(\w+)`. -/
def preLazyWordAt (pre : Str) (s : Str) : Option (Str × Str) :=
  if ciPrefixMatch pre s then scanForWord (s.drop pre.length) else none

/-- Position matcher for `pre[s]?.*?(\w+)`: the optional `s` is consumed
greedily, with backtracking when that leaves no word to capture. -/
def preOptSLazyWordAt (pre : Str) (s : Str) : Option (Str × Str) :=
  if ciPrefixMatch pre s then
    let rest := s.drop pre.length
    match rest with
    | c :: r2 =>
      if c.toLower = 's' then
        match scanForWord r2 with
        | some g => some g
        | none => scanForWord rest
      else scanForWord rest
    | [] => none
  else none

/-- Position matcher for `pre.*?(\d+)`. -/
def preLazyDigitsAt (pre : Str) (s : Str) : Option (Str × Str) :=
  if ciPrefixMatch pre s then scanForDigits (s.drop pre.length) else none

/-- Position matcher for `pre.*?(\d+%)`. -/
def preLazyDigitsPercentAt (pre : Str) (s : Str) : Option (Str × Str) :=
  if ciPrefixMatch pre s then scanForDigitsPercent (s.drop pre.length) else none

/-- Keyword lists of `_extract_key_sentences_realistic` (source order). -/
def action_keywords : List Str := [
  str "will", str "need to", str "should", str "must", str "approved",
  str "decided", str "agreed", str "finalize", str "prepare", str "coordinate",
  str "start", str "help", str "assist", str "launch", str "recruiting",
  str "campaign", str "increase", str "review", str "identify", str "track",
  str "ready", str "complete", str "finish", str "implement", str "execute",
  str "deliver", str "schedule", str "organize", str "manage", str "handle",
  str "process", str "develop", str "create", str "build", str "design",
  str "construct", str "establish", str "initiate", str "activate", str "enable",
  str "facilitate", str "support", str "maintain", str "sustain", str "enhance",
  str "improve", str "optimize", str "upgrade", str "refine", str "polish",
  str "deploy", str "release", str "publish", str "distribute", str "rollout",
  str "monitor", str "supervise", str "oversee", str "control", str "direct",
  str "guide", str "train", str "educate", str "instruct", str "mentor",
  str "coach", str "analyze", str "evaluate", str "assess", str "examine",
  str "investigate", str "research", str "plan", str "strategize", str "schedule",
  str "timeline", str "roadmap", str "milestone", str "collaborate", str "cooperate",
  str "partner", str "align", str "synchronize", str "integrate", str "communicate",
  str "inform", str "notify", str "update", str "report", str "present",
  str "document", str "record", str "log", str "archive", str "store",
  str "save", str "test", str "validate", str "verify", str "confirm",
  str "check", str "audit", str "fix", str "repair", str "resolve",
  str "address", str "tackle", str "solve", str "prioritize", str "rank",
  str "order", str "sequence", str "categorize", str "classify"]

/-- Decision keywords of `_extract_key_sentences_realistic`. -/
def decision_keywords : List Str := [
  str "yes", str "no", str "approved", str "rejected", str "agreed",
  str "decided", str "confirmed", str "finalized", str "accepted", str "declined",
  str "chosen", str "selected", str "prioritized", str "endorsed", str "supported",
  str "backed", str "authorized", str "sanctioned", str "ratified", str "validated",
  str "certified", str "accredited", str "qualified", str "eligible", str "suitable",
  str "recommended", str "suggested", str "proposed", str "nominated", str "designated",
  str "assigned", str "voted", str "polled", str "surveyed", str "consulted",
  str "advised", str "counseled", str "determined", str "resolved", str "settled",
  str "concluded", str "completed", str "verified", str "authenticated", str "endorsed",
  str "ratified", str "authorized", str "permitted", str "allowed", str "granted",
  str "issued", str "provided", str "denied", str "refused", str "rejected",
  str "declined", str "dismissed", str "cancelled", str "postponed", str "delayed",
  str "suspended", str "halted", str "stopped", str "terminated"]

/-- Business keywords of `_extract_key_sentences_realistic`. -/
def business_keywords : List Str := [
  str "budget", str "revenue", str "financial", str "projections", str "marketing",
  str "sprint", str "features", str "development", str "platform", str "database",
  str "migration", str "deadline", str "timeline", str "hiring", str "strategic",
  str "allocations", str "cost", str "savings", str "opportunities", str "client",
  str "customer", str "project", str "team", str "meeting", str "quarter",
  str "annual", str "monthly", str "weekly", str "daily", str "target",
  str "goal", str "profit", str "loss", str "investment", str "capital",
  str "funding", str "financing", str "expense", str "overhead", str "operational",
  str "administrative", str "management", str "leadership", str "executive", str "director",
  str "manager", str "supervisor", str "coordinator", str "analyst", str "specialist",
  str "expert", str "consultant", str "advisor", str "mentor", str "stakeholder",
  str "shareholder", str "investor", str "partner", str "vendor", str "supplier",
  str "contractor", str "freelancer", str "employee", str "staff", str "personnel",
  str "workforce", str "department", str "division", str "unit", str "branch",
  str "office", str "location", str "headquarters", str "facility", str "workspace",
  str "environment", str "infrastructure", str "technology", str "software", str "hardware",
  str "system", str "application", str "tool", str "process", str "procedure",
  str "workflow", str "methodology", str "framework", str "approach", str "strategy",
  str "tactic", str "initiative", str "program", str "campaign", str "product",
  str "service", str "solution", str "offering", str "deliverable", str "outcome",
  str "result", str "impact", str "benefit", str "value", str "advantage",
  str "improvement", str "growth", str "expansion", str "scaling", str "progress",
  str "advancement", str "innovation", str "transformation", str "modernization", str "digitalization",
  str "automation", str "efficiency", str "productivity", str "performance", str "quality",
  str "excellence", str "success", str "achievement", str "milestone", str "objective",
  str "key", str "critical", str "important", str "urgent", str "priority",
  str "high", str "medium", str "low", str "essential", str "vital",
  str "crucial", str "significant", str "major", str "minor", str "substantial",
  str "considerable", str "measurable", str "quantifiable", str "trackable", str "monitorable",
  str "assessable", str "evaluable", str "reviewable", str "auditable", str "reportable",
  str "documentable"]

/-- Technical keywords of `_extract_key_sentences_realistic`. -/
def technical_keywords : List Str := [
  str "api", str "integration", str "deployment", str "configuration", str "setup",
  str "installation", str "maintenance", str "upgrade", str "patch", str "fix",
  str "bug", str "issue", str "problem", str "solution", str "workaround",
  str "alternative", str "option", str "choice", str "decision", str "architecture",
  str "design", str "pattern", str "model", str "framework", str "library",
  str "component", str "module", str "feature", str "functionality", str "capability",
  str "capacity", str "performance", str "optimization", str "scalability", str "reliability",
  str "availability", str "security", str "privacy", str "compliance", str "regulation",
  str "standard", str "protocol", str "interface", str "endpoint", str "service",
  str "microservice", str "container", str "docker", str "kubernetes", str "cloud",
  str "aws", str "azure", str "gcp", str "serverless", str "lambda",
  str "database", str "sql", str "nosql", str "mongodb", str "postgresql",
  str "mysql", str "redis", str "cache", str "storage", str "backup",
  str "recovery", str "disaster", str "continuity", str "monitoring", str "logging",
  str "alerting", str "dashboard", str "metrics", str "analytics", str "reporting",
  str "visualization", str "chart", str "graph", str "table", str "data",
  str "machine", str "learning", str "ai", str "artificial", str "intelligence",
  str "neural", str "algorithm", str "model", str "training", str "prediction",
  str "classification", str "regression"]

/-- Meeting-process keywords of `_extract_key_sentences_realistic`. -/
def meeting_keywords : List Str := [
  str "agenda", str "minutes", str "notes", str "summary", str "recap",
  str "review", str "discussion", str "conversation", str "dialogue", str "exchange",
  str "feedback", str "input", str "suggestion", str "recommendation", str "proposal",
  str "plan", str "strategy", str "approach", str "method", str "technique",
  str "process", str "next", str "steps", str "action", str "items",
  str "tasks", str "assignments", str "responsibilities", str "duties", str "roles",
  str "accountability", str "ownership", str "deadline", str "due", str "date",
  str "timeline", str "schedule", str "calendar", str "meeting", str "call",
  str "conference", str "session", str "workshop", str "training", str "presentation",
  str "demo", str "showcase", str "exhibition", str "display", str "update",
  str "status", str "progress", str "report", str "briefing", str "debriefing",
  str "follow", str "up", str "check", str "in", str "touch",
  str "base", str "connect", str "collaborate", str "coordinate", str "synchronize",
  str "align", str "sync", str "share", str "distribute", str "circulate",
  str "broadcast", str "announce", str "communicate", str "inform", str "notify",
  str "alert", str "warn", str "remind"]

/-- Filler words penalised by `_extract_key_sentences_realistic`. -/
def filler_words : List Str := [
  str "um", str "uh", str "like", str "you know", str "basically",
  str "actually", str "really", str "very", str "quite", str "pretty"]

/-- Business terms checked by `_realistic_combination` for minimum coverage. -/
def business_terms : List Str := [
  str "meeting", str "discussed", str "decided", str "approved", str "will",
  str "need", str "should", str "important", str "team", str "project",
  str "development", str "planning", str "strategy", str "action", str "next",
  str "steps", str "deadline", str "timeline", str "budget", str "revenue",
  str "financial", str "technical", str "implementation", str "deployment", str "integration",
  str "platform", str "system", str "database", str "API", str "security",
  str "performance", str "quality", str "excellence", str "success", str "achievement",
  str "milestone", str "objective", str "goal", str "target", str "outcome",
  str "result", str "impact", str "benefit", str "value", str "advantage",
  str "improvement", str "growth", str "expansion", str "progress", str "advancement",
  str "innovation", str "transformation", str "modernization", str "digitalization", str "automation",
  str "efficiency", str "productivity"]

/-- High-priority vocabulary of `_determine_priority_worldclass` (note: `urgent` appears twice, exactly as in the source). -/
def high_priority_keywords : List Str := [
  str "urgent", str "asap", str "immediately", str "critical", str "important",
  str "priority", str "deadline", str "due", str "must", str "need to",
  str "have to", str "essential", str "emergency", str "crisis", str "urgent",
  str "top priority", str "high priority"]

/-- Low-priority vocabulary of `_determine_priority_worldclass`. -/
def low_priority_keywords : List Str := [
  str "when possible", str "eventually", str "sometime", str "later", str "when you can",
  str "if time permits", str "optional", str "nice to have", str "low priority"]

/-- Medium-priority vocabulary of `_determine_priority_worldclass` (checked in the default branch). -/
def medium_keywords : List Str := [
  str "should", str "will", str "plan to", str "going to", str "need to",
  str "have to"]

/-- Decision lexicon of `calculate_health_score`. -/
def health_decision_keywords : List Str := [
  str "decided", str "agreed", str "concluded", str "resolved", str "approved",
  str "rejected", str "confirmed", str "finalized"]

/-- Engagement lexicon of `calculate_health_score`. -/
def engagement_keywords : List Str := [
  str "discuss", str "review", str "analyze", str "evaluate", str "consider",
  str "explore", str "brainstorm", str "collaborate"]

/-- Decision family of `extract_key_insights`. -/
def insight_decision_keywords : List Str := [
  str "decided", str "agreed", str "concluded", str "resolved", str "approved",
  str "rejected", str "confirmed", str "finalized", str "determined", str "established"]

/-- Risk family of `extract_key_insights`. -/
def insight_risk_keywords : List Str := [
  str "risk", str "concern", str "issue", str "problem", str "challenge",
  str "obstacle", str "barrier", str "threat", str "vulnerability", str "weakness"]

/-- Opportunity family of `extract_key_insights`. -/
def insight_opportunity_keywords : List Str := [
  str "opportunity", str "potential", str "growth", str "improvement", str "benefit",
  str "advantage", str "possibility", str "chance", str "prospect", str "upside"]

/-- Financial family of `extract_key_insights`. -/
def insight_financial_keywords : List Str := [
  str "budget", str "cost", str "revenue", str "profit", str "investment",
  str "financial", str "money", str "dollar", str "euro", str "price"]

/-- One extracted action item (`extract_action_items` builds dicts with these
keys; `status` is always initialised to `"pending"`). -/
structure ActionItem where
  id : Str
  task : Str
  assignee : Str
  due_date : Str
  priority : Str
  status : Str
deriving DecidableEq, Repr

/-- The lexical fallback similarity of `_is_similar_task_advanced`:
`len(intersection) / len(union)` over the lowercased word sets, `0` when the
union is empty. -/
def lexicalSimilarity (task1 task2 : Str) : ℚ :=
  let words1 := (pySplit (pyLower task1)).toFinset
  let words2 := (pySplit (pyLower task2)).toFinset
  if (words1 ∪ words2) = ∅ then 0
  else ((words1 ∩ words2).card : ℚ) / (((words1 ∪ words2).card : ℚ))

/-- `_is_similar_task_advanced`: embedding cosine similarity `> 0.8` when the
sentence-transformer works, lexical Jaccard similarity `> 0.7` when encoding
raises. -/
def is_similar_task_advanced (emb : Option (Str → Str → ℚ)) (task1 task2 : Str) : Bool :=
  match emb with
  | some cos => decide (cos task1 task2 > 0.8)
  | none => decide (lexicalSimilarity task1 task2 > 0.7)

/-- The dead computation inside `_extract_assignee_worldclass`'s `try` block:
the source walks `transcript.split('.')`, keeps sentences whose stripped
length exceeds 10, tracks the best cosine similarity to the task, and records
the first participant named in the most similar sentence — but never returns
or otherwise uses the result. `best` is `(best_similarity, best_assignee)`. -/
def assigneeContextScan (cos : Str → Str → ℚ) (task : Str) (participants : List Str) :
    List Str → ℚ × Option Str → ℚ × Option Str
  | [], best => best
  | sentence :: rest, best =>
    if (pyStrip sentence).length > 10 then
      let sim := cos task sentence
      if sim > best.1 then
        let named := participants.find? (fun p => pyIn (pyLower p) (pyLower sentence))
        assigneeContextScan cos task participants rest (sim, named)
      else assigneeContextScan cos task participants rest best
    else assigneeContextScan cos task participants rest best

/-- The value of `best_assignee` at the end of the discarded `try` block. -/
def assigneeContextBest (cos : Str → Str → ℚ) (task : Str) (participants : List Str)
    (transcript : Str) : Option Str :=
  (assigneeContextScan cos task participants (pySplitOn (str ".") transcript) (0, none)).2

/-- `.*?` between a speaker label and the task cannot cross a newline; scan the
current line for a case-insensitive occurrence of the (escaped, hence literal)
task. -/
def lineContainsF (taskLower : Str) : Nat → Str → Bool
  | 0, _ => false
  | fuel + 1, s =>
    if ciPrefixMatch taskLower s then true
    else
      match s with
      | [] => false
      | c :: t => if c = '\n' then false else lineContainsF taskLower fuel t

def lineContains (taskLower s : Str) : Bool := lineContainsF taskLower (s.length + 1) s

/-- Position matcher for the assignment pattern `(participant):.*?task`
(`re.search`, IGNORECASE); group 1 is the participant as spelled in the
transcript. -/
def speakerPatAt (p task : Str) (s : Str) : Option Str :=
  if ciPrefixMatch (pyLower p ++ [':']) s then
    if lineContains (pyLower task) (s.drop (p.length + 1)) then some (s.take p.length)
    else none
  else none

/-- `_extract_assignee_worldclass`. Steps, in source order:
(a) first participant whose name occurs inside the task;
(b) the `try` block — on embedding success it computes `best_assignee` and
    drops it (see `assigneeContextBest`); on embedding failure (`emb = none`)
    the `except` handler returns the first participant named in a sentence
    that contains the task;
(c) the speaker-label regex over participants in order;
(d) the first participant, or `"TBD"` when there are none. -/
def extract_assignee_worldclass (emb : Option (Str → Str → ℚ)) (task : Str)
    (participants : List Str) (transcript : Str) : Str :=
  match participants.find? (fun p => pyIn (pyLower p) (pyLower task)) with
  | some p => p
  | none =>
    let viaExcept : Option Str :=
      match emb with
      | some _ => none
      | none =>
        (pySplitOn (str ".") transcript).findSome? (fun sentence =>
          if pyIn (pyLower task) (pyLower sentence) then
            participants.find? (fun p => pyIn (pyLower p) (pyLower sentence))
          else none)
    match viaExcept with
    | some p => p
    | none =>
      match participants.findSome? (fun p => searchPat (speakerPatAt p task) transcript) with
      | some name => name
      | none => participants.headD (str "TBD")

def weekday_names : List Str :=
  [str "monday", str "tuesday", str "wednesday", str "thursday", str "friday",
   str "saturday", str "sunday"]

def month_names : List Str :=
  [str "january", str "february", str "march", str "april", str "may", str "june",
   str "july", str "august", str "september", str "october", str "november",
   str "december"]

/-- The eleven `date_patterns` of `_extract_due_date_worldclass`, in source
order, each as a `re.search`-style function returning group 1. -/
def date_patterns : List (Str → Option Str) :=
  [searchPat (preAltAt (str "by ") weekday_names),
   searchPat (preAltAt (str "by ")
     [str "tomorrow", str "next week", str "friday", str "monday",
      str "end of week", str "this week"]),
   searchPat (fun s => (slashD12At s)),
   searchPat (fun s => (dashD12At s)),
   searchPat (preAltAt [] month_names),
   searchPat (preAltAt []
     [str "next monday", str "next tuesday", str "next wednesday",
      str "next thursday", str "next friday"]),
   searchPat (preAltAt []
     [str "end of month", str "end of quarter", str "end of year"]),
   searchPat (preAltAt [] [str "asap", str "immediately", str "urgent"]),
   searchPat (fun s => (ordinalD12At s)),
   searchPat (fun s => (isoDateAt s)),
   searchPat (fun s => (slashYearAt s))]

/-- `_extract_due_date_worldclass`: first matching pattern wins; the group is
returned `.title()`-cased; otherwise `"TBD"`. -/
def extract_due_date_worldclass (task : Str) : Str :=
  match date_patterns.findSome? (fun p => p task) with
  | some g => pyTitle g
  | none => str "TBD"

/-- `_determine_priority_worldclass`: keyword presence counts over the task
and the full transcript, task hits weighted `2`, transcript hits `0.5`;
`"high"`/`"low"` require the corresponding weighted score to beat the other
and to exceed `1`; both arms of the final medium check return `"medium"`. -/
def determine_priority_worldclass (task transcript : Str) : Str :=
  let task_lower := pyLower task
  let transcript_lower := pyLower transcript
  let high_count := countPresent high_priority_keywords task_lower
  let high_context_count := countPresent high_priority_keywords transcript_lower
  let low_count := countPresent low_priority_keywords task_lower
  let low_context_count := countPresent low_priority_keywords transcript_lower
  let high_score : ℚ := (high_count : ℚ) * 2 + (high_context_count : ℚ) * 0.5
  let low_score : ℚ := (low_count : ℚ) * 2 + (low_context_count : ℚ) * 0.5
  if high_score > low_score ∧ high_score > 1 then str "high"
  else if low_score > high_score ∧ low_score > 1 then str "low"
  else
    let medium_count := countPresent medium_keywords task_lower
    if medium_count > 0 then str "medium" else str "medium"

/-- The 25 regex prefixes of `extract_action_items`' `action_patterns`, in
source order (each source pattern is this prefix followed by `(.+?)(?:\.|$)`). -/
def action_patterns : List Str :=
  [str "need to ", str "should ", str "will ", str "action item: ",
   str "follow up on ", str "prepare ", str "schedule ", str "can you ",
   str "please ", str "have to ", str "must ", str "going to ", str "plan to ",
   str "responsible for ", str "take care of ", str "handle ", str "work on ",
   str "focus on ", str "complete ", str "finish ", str "deliver ",
   str "implement ", str "create ", str "develop ", str "build "]

/-- All raw pattern matches, pattern by pattern in source order. -/
def actionCandidates (transcript : Str) : List Str :=
  action_patterns.flatMap (fun pat => findCaptures pat transcript)

/-- `f"ai_{int(time.time() * 1000)}_{len(action_items) + 1:03d}"`. -/
def mkActionId (now idx : Nat) : Str :=
  str "ai_" ++ (toString now).toList ++ '_' ::
    (let d := (toString idx).toList
     if d.length ≥ 3 then d else List.replicate (3 - d.length) '0' ++ d)

/-- The candidate loop of `extract_action_items`: strip, drop matches shorter
than 10 characters, build the item, and keep it only when no already-kept item
is similar to it. -/
def buildActionItems (emb : Option (Str → Str → ℚ)) (now : Nat)
    (participants : List Str) (transcript : Str) :
    List Str → List ActionItem → List ActionItem
  | [], acc => acc
  | m :: ms, acc =>
    let clean := pyStrip m
    if clean.length < 10 then buildActionItems emb now participants transcript ms acc
    else
      let item : ActionItem :=
        { id := mkActionId now (acc.length + 1)
          task := clean
          assignee := extract_assignee_worldclass emb clean participants transcript
          due_date := extract_due_date_worldclass clean
          priority := determine_priority_worldclass clean transcript
          status := str "pending" }
      if acc.any (fun it => is_similar_task_advanced emb it.task clean) then
        buildActionItems emb now participants transcript ms acc
      else buildActionItems emb now participants transcript ms (acc ++ [item])

/-- `priority_order.get(priority, 2)` with `{"high": 3, "medium": 2, "low": 1}`. -/
def priorityRank (p : Str) : Nat :=
  if p = str "high" then 3 else if p = str "medium" then 2
  else if p = str "low" then 1 else 2

/-- `action_items.sort(key=..., reverse=True)` is a stable descending sort;
with keys confined to `{1, 2, 3}` it equals concatenating the key buckets in
descending key order, preserving discovery order inside each bucket. -/
def sortByPriority (items : List ActionItem) : List ActionItem :=
  items.filter (fun it => priorityRank it.priority = 3)
    ++ items.filter (fun it => priorityRank it.priority = 2)
    ++ items.filter (fun it => priorityRank it.priority = 1)

/-- `extract_action_items` (production path; the `except` handler is dead in
the embedding because every embedded step is total). -/
def extract_action_items (emb : Option (Str → Str → ℚ)) (now : Nat)
    (transcript : Str) (participants : List Str) : List ActionItem :=
  (sortByPriority
    (buildActionItems emb now participants transcript (actionCandidates transcript) [])).take 5

/-- `re.findall(r"\d+", s)` counts maximal digit runs. -/
def countDigitRuns (inRun : Bool) : Str → Nat
  | [] => 0
  | c :: t =>
    if c.isDigit then (if inRun then 0 else 1) + countDigitRuns true t
    else countDigitRuns false t

/-- Right `\b` after a matched word: end of string or a non-word character. -/
def rightBoundaryOk : Str → Bool
  | [] => true
  | c :: _ => !isWordChar c

/-- Number of matches of `\b(alt1|…|altn)\b` (IGNORECASE, non-overlapping).
Every alternative begins with a letter, so the left `\b` holds exactly when
the previous character is not a word character (`prevW`). -/
def countBoundedAltsF (alts : List Str) : Nat → Bool → Str → Nat
  | 0, _, _ => 0
  | fuel + 1, prevW, s =>
    match s with
    | [] => 0
    | c :: t =>
      match
        (if prevW then none
         else alts.findSome? (fun a =>
           if ciPrefixMatch a s && rightBoundaryOk (s.drop a.length) then some a.length
           else none)) with
      | some n => 1 + countBoundedAltsF alts fuel true (s.drop n)
      | none => countBoundedAltsF alts fuel (isWordChar c) t

def countBoundedAlts (alts : List Str) (s : Str) : Nat :=
  countBoundedAltsF alts (s.length + 1) false s

/-- The specificity count of `calculate_health_score`: digit runs plus
`\b`-delimited month names plus weekday names. -/
def specificityCount (s : Str) : Nat :=
  countDigitRuns false s + countBoundedAlts month_names s + countBoundedAlts weekday_names s

/-- `calculate_health_score` (production path). Base `5.0`, capped additive
adjustments, a content-density adjustment computed — exactly as in the
source — from `len(transcript.split()) / (duration / 60)` (the code comment
calls this "words per minute" although it is `60×` that), and a final
`min(score, 10.0)`. -/
def calculate_health_score (emb : Option (Str → Str → ℚ)) (now : Nat)
    (transcript : Str) (duration : ℕ) (participant_count : ℕ) : ℚ :=
  let action_items := (extract_action_items emb now transcript []).length
  let decisions := countPresent health_decision_keywords (pyLower transcript)
  let base : ℚ := 5.0
  let s1 := base + (if action_items > 0 then min ((action_items : ℚ) * 0.7) 3.0 else 0)
  let s2 := s1 + min ((decisions : ℚ) * 0.5) 2.5
  let s3 := s2 + (if participant_count > 2 then
      min (((participant_count : ℚ) - 2) * 0.4) 1.5 else 0)
  let s4 := s3 +
    (if duration > 0 then
      (let content_density : ℚ := ((pySplit transcript).length : ℚ) / ((duration : ℚ) / 60)
       if content_density > 25 then min (content_density / 12) 2.0
       else if content_density < 15 then -0.8
       else 0)
     else 0)
  let engagement := countPresent engagement_keywords (pyLower transcript)
  let s5 := s4 + min ((engagement : ℚ) * 0.3) 1.5
  let questions := transcript.count '?'
  let s6 := s5 + (if questions > 0 then min ((questions : ℚ) * 0.2) 1.0 else 0)
  let specificity := specificityCount transcript
  let s7 := s6 + min ((specificity : ℚ) * 0.1) 1.0
  min s7 10.0

/-- Modelled from the spec: the same scorer with the content density computed
as the spec (and the source's own comment) words it — words-per-minute
`word_count / duration_minutes` — for comparison against the code's
`word_count / (duration / 60)`. Everything else is identical to
`calculate_health_score`. -/
def calculate_health_score_spec_density (emb : Option (Str → Str → ℚ)) (now : Nat)
    (transcript : Str) (duration : ℕ) (participant_count : ℕ) : ℚ :=
  let action_items := (extract_action_items emb now transcript []).length
  let decisions := countPresent health_decision_keywords (pyLower transcript)
  let base : ℚ := 5.0
  let s1 := base + (if action_items > 0 then min ((action_items : ℚ) * 0.7) 3.0 else 0)
  let s2 := s1 + min ((decisions : ℚ) * 0.5) 2.5
  let s3 := s2 + (if participant_count > 2 then
      min (((participant_count : ℚ) - 2) * 0.4) 1.5 else 0)
  let s4 := s3 +
    (if duration > 0 then
      (let content_density : ℚ := ((pySplit transcript).length : ℚ) / (duration : ℚ)
       if content_density > 25 then min (content_density / 12) 2.0
       else if content_density < 15 then -0.8
       else 0)
     else 0)
  let engagement := countPresent engagement_keywords (pyLower transcript)
  let s5 := s4 + min ((engagement : ℚ) * 0.3) 1.5
  let questions := transcript.count '?'
  let s6 := s5 + (if questions > 0 then min ((questions : ℚ) * 0.2) 1.0 else 0)
  let specificity := specificityCount transcript
  let s7 := s6 + min ((specificity : ℚ) * 0.1) 1.0
  min s7 10.0

/-- Model of `nltk.sent_tokenize`: a sentence ends at a `'.'`, `'!'` or `'?'`
followed by whitespace; the terminator stays with its sentence and the
separating whitespace is dropped. (The claims only evaluate this on inputs
where any punkt-model refinement agrees.) -/
def sent_tokenizeF : Nat → Str → Str → List Str
  | 0, acc, rest => [acc.reverse ++ rest]
  | _ + 1, acc, [] => if acc.isEmpty then [] else [acc.reverse]
  | fuel + 1, acc, c :: t =>
    if (c = '.' || c = '!' || c = '?') &&
        (match t with | [] => false | d :: _ => d.isWhitespace) then
      (acc.reverse ++ [c]) :: sent_tokenizeF fuel [] (t.dropWhile Char.isWhitespace)
    else sent_tokenizeF fuel (c :: acc) t

def sent_tokenize (s : Str) : List Str := sent_tokenizeF (s.length + 1) [] s

/-- One lexicon family of `extract_key_insights`: for every family keyword
present in the transcript, the first sentence longer than 30 characters
containing it produces one tagged insight (the `break` in the source only
leaves the sentence loop, not the keyword loop). -/
def familyInsights (kws : List Str) (tagPre : Str) (transcript : Str) : List Str :=
  kws.filterMap (fun kw =>
    if pyIn kw (pyLower transcript) then
      (sent_tokenize transcript).findSome? (fun sentence =>
        if pyIn kw (pyLower sentence) ∧ sentence.length > 30 then
          some (tagPre ++ pyStrip sentence)
        else none)
    else none)

/-- Stable descending insertion by a key into an already-sorted list: an
element is placed before the first entry whose key is not larger, so equal
keys keep their original relative order — Python's `sort(key=…, reverse=True)`. -/
def insertDescBy {α β : Type} [LinearOrder β] (key : α → β) (x : α) :
    List α → List α
  | [] => [x]
  | y :: ys => if key y > key x then y :: insertDescBy key x ys else x :: y :: ys

def sortDescBy {α β : Type} [LinearOrder β] (key : α → β) : List α → List α
  | [] => []
  | x :: xs => insertDescBy key x (sortDescBy key xs)

/-- `_create_real_insights`. -/
def create_real_insights (transcript : Str) : List Str :=
  let words := pySplit (pyLower transcript)
  let meaningful := words.filter (fun w => w.length > 4)
  let freqs : List (Str × Nat) := meaningful.eraseDups.map (fun w => (w, meaningful.count w))
  let frequent := (sortDescBy (fun x => x.2) freqs).take 3
  let themes := frequent.filterMap (fun wc =>
    if wc.2 > 1 then
      some (str "Key theme: " ++ pyTitle wc.1 ++ str " (mentioned "
        ++ (toString wc.2).toList ++ str " times)")
    else none)
  let withConds := themes
    ++ (if pyIn (str "budget") (pyLower transcript) then
         [str "Financial planning and budget allocation discussed"] else [])
    ++ (if pyIn (str "deadline") (pyLower transcript) ∨ pyIn (str "due") (pyLower transcript)
        then [str "Time-sensitive deliverables identified"] else [])
    ++ (if pyIn (str "team") (pyLower transcript) ∨ pyIn (str "collaboration") (pyLower transcript)
        then [str "Team coordination and collaboration emphasized"] else [])
  let padded := if withConds.length < 2 then
      withConds ++ [str "Meeting focused on strategic planning and execution",
                    str "Action items and next steps clearly defined"]
    else withConds
  padded.take 5

/-- `extract_key_insights` (production path). -/
def extract_key_insights (transcript : Str) : List Str :=
  let insights :=
    familyInsights insight_decision_keywords (str "Decision made: ") transcript
    ++ familyInsights insight_risk_keywords (str "Risk identified: ") transcript
    ++ familyInsights insight_opportunity_keywords (str "Opportunity: ") transcript
    ++ familyInsights insight_financial_keywords (str "Financial insight: ") transcript
  if insights = [] then create_real_insights transcript else insights.take 5

def quoteChar : Char := Char.ofNat 39

def valid_types : List Str :=
  [str "general", str "executive", str "sprint_planning", str "budget",
   str "client", str "technical", str "planning"]

/-- `str(ValueError)` text of the invalid-meeting-type error, including the
Python list repr of `valid_types`. -/
def invalid_type_message : Str :=
  str "Invalid meeting type. Must be one of: [" ++
    joinSep (str ", ") (valid_types.map (fun v => quoteChar :: v ++ [quoteChar])) ++ str "]"

/-- `_validate_input`: `Except.error msg` models `raise ValueError(msg)`. -/
def validate_input (transcript mt : Str) : Except Str Unit :=
  if pyStrip transcript = [] then Except.error (str "Transcript cannot be empty")
  else if (pyStrip transcript).length < 10 then
    Except.error (str "Transcript too short (minimum 10 characters)")
  else if valid_types.contains mt = false then Except.error invalid_type_message
  else Except.ok ()

/-- `_fallback_summary`. -/
def fallback_summary (transcript mt : Str) : Str :=
  let sentences := sent_tokenize transcript
  if sentences.length ≤ 2 then transcript
  else
    let summary := sentences.headD [] ++ ' ' :: (sentences.getLast?.getD [])
    if summary.length > 200 then summary.take 200 ++ str "..." else summary

/-- `summarize_meeting` (production path): validation errors are caught by the
`except ValueError` handler and returned as an `"Error: …"` string; otherwise
the summarizer collaborator's text is returned, falling back to
`_fallback_summary` when the collaborator raises. The request-length
computation only shapes the collaborator call and does not affect the
returned value, so it is not part of the embedding. -/
def summarize_meeting (summarizer : Option Str) (transcript mt : Str) : Str :=
  match validate_input transcript mt with
  | Except.error e => str "Error: " ++ e
  | Except.ok _ =>
    match summarizer with
    | some s => s
    | none => fallback_summary transcript mt

def emphasis_words : List Str :=
  [str "important", str "critical", str "urgent", str "key", str "major"]

/-- Checked against the sentence in original case in the source. -/
def name_words : List Str :=
  [str "CEO", str "CFO", str "CTO", str "John", str "Sarah", str "Mike",
   str "Lisa", str "Alice", str "Bob", str "Carol", str "Dave"]

def time_words : List Str :=
  [str "monday", str "tuesday", str "wednesday", str "thursday", str "friday",
   str "saturday", str "sunday", str "january", str "february", str "march",
   str "april", str "may", str "june", str "july", str "august", str "september",
   str "october", str "november", str "december", str "today", str "tomorrow",
   str "yesterday", str "week", str "month", str "year", str "quarter"]

def imperative_patterns : List Str :=
  [str "will be", str "need to", str "should be", str "must be", str "going to"]

def decided_patterns : List Str :=
  [str "decided to", str "agreed to", str "approved to", str "chose to", str "selected to"]

def impact_words : List Str :=
  [str "increase", str "decrease", str "improve", str "reduce", str "boost",
   str "enhance", str "optimize"]

def tech_mention_words : List Str :=
  [str "api", str "integration", str "deployment", str "configuration",
   str "database", str "system"]

def structure_words : List Str :=
  [str "agenda", str "minutes", str "summary", str "action items", str "next steps"]

def urgency_words : List Str :=
  [str "urgent", str "critical", str "asap", str "immediately", str "priority"]

def team_words : List Str :=
  [str "team", str "together", str "collaborate", str "coordinate", str "partner"]

/-- The per-sentence score of `_extract_key_sentences_realistic` (`i` is the
sentence index, `n` the number of sentences). Additive terms appear in source
order; position and length use the source's `elif` chains. -/
def realisticSentenceScore (i n : Nat) (sentence : Str) : ℚ :=
  let sl := pyLower sentence
  let kw : ℚ :=
    (countPresent action_keywords sl : ℚ) * 3.0
    + (countPresent decision_keywords sl : ℚ) * 2.5
    + (countPresent business_keywords sl : ℚ) * 2.0
    + (countPresent technical_keywords sl : ℚ) * 1.5
    + (countPresent meeting_keywords sl : ℚ) * 1.0
  let pos : ℚ :=
    if i = 0 then 3
    else if i = n - 1 then 2
    else if (i : ℚ) < (n : ℚ) * 0.3 then 2
    else if (i : ℚ) < (n : ℚ) * 0.7 then 1
    else 0
  let wc := (pySplit sentence).length
  let len : ℚ :=
    if 15 ≤ wc ∧ wc ≤ 35 then 3
    else if 10 ≤ wc ∧ wc ≤ 50 then 2
    else if 5 ≤ wc ∧ wc ≤ 60 then 1
    else 0
  let bonus : ℚ :=
    (if sentence.contains '?' then 2 else 0)
    + (if sentence.getLast? = some '.' then 1 else 0)
    + (if anyPresent emphasis_words sl then 1 else 0)
    + (if anyPresent name_words sentence then 2 else 0)
    + (if anyPresent time_words sl then 2 else 0)
    + (if sentence.any Char.isDigit ∨ sentence.contains '%' then 2 else 0)
    + (if anyPresent imperative_patterns sl then 2 else 0)
    + (if anyPresent decided_patterns sl then 2 else 0)
    + (if anyPresent impact_words sl then 1 else 0)
    + (if anyPresent tech_mention_words sl then 1 else 0)
    + (if anyPresent structure_words sl then 1 else 0)
    + (if anyPresent urgency_words sl then 2 else 0)
    + (if anyPresent team_words sl then 1 else 0)
  let filler : ℚ := (countPresent filler_words sl : ℚ) * 0.5
  kw + pos + len + bonus - filler

/-- `_extract_key_sentences_realistic`: split on `". "`, skip blank sentences,
keep stripped sentences scoring above `4`, stable-sort descending by score and
return the texts of the top 5. -/
def extract_key_sentences_realistic (transcript : Str) : List Str :=
  let sentences := pySplitOn (str ". ") transcript
  let n := sentences.length
  let scored := sentences.enum.filterMap (fun p =>
    if pyStrip p.2 = [] then none
    else
      let sc := realisticSentenceScore p.1 n p.2
      if sc > 4 then some (pyStrip p.2, sc) else none)
  ((sortDescBy (fun x => x.2) scored).take 5).map (fun x => x.1)

/-- `_extract_budget_summary`. -/
def extract_budget_summary (transcript : Str) : Str :=
  let budgetMatches : List (List Str) :=
    [findAllPat digitsPercentAt transcript,
     findAllPat dollarAt transcript,
     findAllPat (digitsLiteralAt (str " thousand")) transcript,
     findAllPat (digitsLiteralAt (str " million")) transcript,
     findAllPat (preLazyDigitsAt (str "budget")) transcript,
     findAllPat (preLazyDigitsAt (str "cost")) transcript,
     findAllPat (preLazyDigitsAt (str "expense")) transcript]
  let e1 : List Str :=
    match budgetMatches.find? (fun ms => !ms.isEmpty) with
    | some ms => [str "Budget considerations: " ++ joinSep (str ", ") (ms.take 3)]
    | none => []
  let deadlineMatches : List (List Str) :=
    [findAllPat (fun s => if ciPrefixMatch (str "by ") s then wordDayAt (s.drop 3) else none) transcript,
     findAllPat wordDayAt transcript,
     findAllPat (preLazyWordAt (str "deadline")) transcript,
     findAllPat (preLazyWordAt (str "due")) transcript,
     findAllPat slashDigitsAt transcript,
     findAllPat wordSpaceDigitsAt transcript]
  let e2 : List Str :=
    match deadlineMatches.find? (fun ms => !ms.isEmpty) with
    | some ms => [str "Timeline: " ++ joinSep (str ", ") (ms.take 2)]
    | none => []
  let elements := e1 ++ e2
  if elements.isEmpty then
    str "Budget meeting focused on financial planning and resource allocation."
  else joinSep (str ". ") elements

/-- `_extract_planning_summary`. -/
def extract_planning_summary (transcript : Str) : Str :=
  let featureMatches : List (List Str) :=
    [findAllPat (preOptSLazyWordAt (str "feature")) transcript,
     findAllPat (preOptSLazyWordAt (str "task")) transcript,
     findAllPat (preOptSLazyWordAt (str "project")) transcript,
     findAllPat (preLazyWordAt (str "development")) transcript,
     findAllPat (preLazyWordAt (str "implementation")) transcript]
  let e1 : List Str :=
    match featureMatches.find? (fun ms => !ms.isEmpty) with
    | some ms => [str "Key deliverables: " ++ joinSep (str ", ") (ms.take 3)]
    | none => []
  let priorityMatches : List (List Str) :=
    [findAllPat (preLazyWordAt (str "priority")) transcript,
     findAllPat (preLazyWordAt (str "important")) transcript,
     findAllPat (preLazyWordAt (str "critical")) transcript,
     findAllPat (preLazyWordAt (str "urgent")) transcript,
     findAllPat (preLazyWordAt (str "high")) transcript]
  let e2 : List Str :=
    match priorityMatches.find? (fun ms => !ms.isEmpty) with
    | some ms => [str "Priorities: " ++ joinSep (str ", ") (ms.take 2)]
    | none => []
  let elements := e1 ++ e2
  if elements.isEmpty then
    str "Planning meeting focused on project coordination and task assignment."
  else joinSep (str ". ") elements

/-- `_extract_executive_summary`. -/
def extract_executive_summary (transcript : Str) : Str :=
  let decisionMatches : List (List Str) :=
    [findAllPat (preLazyWordAt (str "decided")) transcript,
     findAllPat (preLazyWordAt (str "approved")) transcript,
     findAllPat (preLazyWordAt (str "strategy")) transcript,
     findAllPat (preLazyWordAt (str "plan")) transcript,
     findAllPat (preLazyWordAt (str "goal")) transcript,
     findAllPat (preLazyWordAt (str "target")) transcript]
  let e1 : List Str :=
    match decisionMatches.find? (fun ms => !ms.isEmpty) with
    | some ms => [str "Strategic decisions: " ++ joinSep (str ", ") (ms.take 3)]
    | none => []
  let revenueMatches : List (List Str) :=
    [findAllPat (preLazyDigitsPercentAt (str "revenue")) transcript,
     findAllPat (preLazyDigitsPercentAt (str "growth")) transcript,
     findAllPat (preLazyDigitsPercentAt (str "increase")) transcript,
     findAllPat (preLazyDigitsAt (str "target")) transcript,
     findAllPat (preLazyDigitsAt (str "goal")) transcript]
  let e2 : List Str :=
    match revenueMatches.find? (fun ms => !ms.isEmpty) with
    | some ms => [str "Growth targets: " ++ joinSep (str ", ") (ms.take 2)]
    | none => []
  let elements := e1 ++ e2
  if elements.isEmpty then
    str "Executive meeting focused on strategic planning and organizational direction."
  else joinSep (str ". ") elements

/-- `_extract_client_summary`. -/
def extract_client_summary (transcript : Str) : Str :=
  let issueMatches : List (List Str) :=
    [findAllPat (preOptSLazyWordAt (str "issue")) transcript,
     findAllPat (preOptSLazyWordAt (str "problem")) transcript,
     findAllPat (preOptSLazyWordAt (str "concern")) transcript,
     findAllPat (preOptSLazyWordAt (str "challenge")) transcript,
     findAllPat (preLazyWordAt (str "difficulty")) transcript]
  let e1 : List Str :=
    match issueMatches.find? (fun ms => !ms.isEmpty) with
    | some ms => [str "Client concerns: " ++ joinSep (str ", ") (ms.take 3)]
    | none => []
  let solutionMatches : List (List Str) :=
    [findAllPat (preLazyWordAt (str "solution")) transcript,
     findAllPat (preLazyWordAt (str "fix")) transcript,
     findAllPat (preLazyWordAt (str "improve")) transcript,
     findAllPat (preLazyWordAt (str "update")) transcript,
     findAllPat (preLazyWordAt (str "next")) transcript]
  let e2 : List Str :=
    match solutionMatches.find? (fun ms => !ms.isEmpty) with
    | some ms => [str "Solutions: " ++ joinSep (str ", ") (ms.take 2)]
    | none => []
  let elements := e1 ++ e2
  if elements.isEmpty then
    str "Client meeting focused on issue resolution and relationship management."
  else joinSep (str ". ") elements

/-- `_extract_general_summary`. -/
def extract_general_summary (transcript : Str) : Str :=
  let actionMatches : List (List Str) :=
    [findAllPat (preLazyWordAt (str "action")) transcript,
     findAllPat (preLazyWordAt (str "task")) transcript,
     findAllPat (preLazyWordAt (str "next")) transcript,
     findAllPat (preLazyWordAt (str "follow")) transcript,
     findAllPat (preLazyWordAt (str "complete")) transcript]
  let elements : List Str :=
    match actionMatches.find? (fun ms => !ms.isEmpty) with
    | some ms => [str "Action items: " ++ joinSep (str ", ") (ms.take 3)]
    | none => []
  if elements.isEmpty then
    str "Meeting focused on team coordination and project management."
  else joinSep (str ". ") elements

/-- `_create_type_specific_summary`. -/
def create_type_specific_summary (transcript mt : Str) : Str :=
  if mt = str "budget" then extract_budget_summary transcript
  else if mt = str "planning" then extract_planning_summary transcript
  else if mt = str "executive" then extract_executive_summary transcript
  else if mt = str "client" then extract_client_summary transcript
  else extract_general_summary transcript

/-- `_create_action_focused_summary`. -/
def create_action_focused_summary (emb : Option (Str → Str → ℚ)) (now : Nat)
    (transcript : Str) : Str :=
  let actions := extract_action_items emb now transcript []
  if actions.isEmpty then str "Meeting resulted in clear action items and next steps."
  else str "Key actions: " ++ joinSep (str ", ") ((actions.take 3).map (fun a => a.task))

/-- `_enhanced_bart_summarize`: on collaborator success the summary text is
returned; any exception is caught and `_fallback_summary` returned. The
request-length tiers only shape the collaborator call. -/
def enhanced_bart_summarize (summarizer : Option Str) (transcript mt : Str) : Str :=
  match summarizer with
  | some s => s
  | none => fallback_summary transcript mt

/-- `meeting_contexts` of `_realistic_combination`, with the `.get(…,
contexts["general"])` default. -/
def meetingContextFor (mt : Str) : Str :=
  if mt = str "executive" then
    str "This executive meeting covered critical strategic decisions, budget allocations, and key performance targets that will drive organizational growth and competitive advantage."
  else if mt = str "planning" then
    str "This planning meeting focused on project roadmap development, resource allocation, timeline optimization, and team coordination for successful delivery."
  else if mt = str "technical" then
    str "This technical meeting addressed system architecture improvements, performance optimization, security enhancements, and implementation strategies."
  else if mt = str "budget" then
    str "This budget meeting covered financial planning, cost analysis, resource allocation, and investment decisions for optimal fiscal management."
  else
    str "This meeting covered important project discussions, strategic planning decisions, and key action items requiring immediate attention and follow-up."

/-- `fallback_contexts` of `_realistic_combination` (the meeting-type fallback
template returned when no candidate survives). -/
def fallbackContextFor (mt : Str) : Str :=
  if mt = str "executive" then
    str "Executive meeting focused on strategic leadership decisions, organizational direction, and high-level planning initiatives."
  else if mt = str "planning" then
    str "Planning meeting covered project coordination, resource management, and timeline optimization strategies."
  else if mt = str "technical" then
    str "Technical meeting addressed system improvements, performance optimization, and implementation strategies."
  else if mt = str "budget" then
    str "Budget meeting covered financial planning, cost management, and resource allocation decisions."
  else
    str "Meeting focused on important project discussions, strategic planning, and team coordination."

/-- The `all_content` list of `_realistic_combination`: `(tag, text, priority)`
entries gated by Python truthiness and word-count thresholds, in source order. -/
def combinationCandidates (bart : Str) (key_sentences : List Str)
    (type_specific action_focused : Str) : List (Str × Str × Nat) :=
  (if !bart.isEmpty && (pySplit bart).length > 20 then [(str "bart", bart, 10)] else [])
  ++ key_sentences.filterMap (fun s =>
      if (pySplit s).length > 10 then some (str "key", s, 8) else none)
  ++ (if !type_specific.isEmpty && (pySplit type_specific).length > 15 then
      [(str "type", type_specific, 7)] else [])
  ++ (if !action_focused.isEmpty && (pySplit action_focused).length > 15 then
      [(str "action", action_focused, 6)] else [])

/-- The deduplication loop of `_realistic_combination`: the token-overlap test
compares `len(set(content_lower.split()) & set(seen.split()))` against
`len(content_lower.split()) * 0.7`; survivors also need more than 8 words.
`unique` and `seen` accumulate in loop order. -/
def combinationDedup : List (Str × Str × Nat) → List Str → List Str → List Str
  | [], unique, _ => unique
  | c :: rest, unique, seen =>
    let content := c.2.1
    let cl := pyLower content
    let isDup := seen.any (fun sp =>
      decide ((((pySplit cl).toFinset ∩ (pySplit sp).toFinset).card : ℚ) >
        ((pySplit cl).length : ℚ) * 0.7))
    if !isDup && (pySplit content).length > 8 then
      combinationDedup rest (unique ++ [content]) (seen ++ [cl])
    else combinationDedup rest unique seen

/-- `unique_content` of `_realistic_combination` for the four strategy
outputs: candidates sorted stably by descending priority, then deduplicated. -/
def survivingCandidates (bart : Str) (key_sentences : List Str)
    (type_specific action_focused : Str) : List Str :=
  combinationDedup
    (sortDescBy (fun x => x.2.2) (combinationCandidates bart key_sentences type_specific action_focused))
    [] []

/-- The summary constructed from surviving candidates: top 4 period-joined,
terminal `'.'` ensured, meeting context appended under 50 words, and a generic
closing sentence appended when fewer than 8 business terms are present. -/
def mergedSummary (unique_content : List Str) (mt : Str) : Str :=
  let final_parts := unique_content.take 4
  let fs1 := joinSep (str ". ") final_parts
  let fs2 := if fs1.getLast? = some '.' then fs1 else fs1 ++ ['.']
  let fs3 := if (pySplit fs2).length < 50 then fs2 ++ ' ' :: meetingContextFor mt else fs2
  let found_terms := countPresent business_terms (pyLower fs3)
  if found_terms < 8 then
    fs3 ++ str " Key outcomes included strategic decisions, action items, and project milestones that will drive organizational success and competitive advantage."
  else fs3

/-- `_realistic_combination`. -/
def realistic_combination (bart : Str) (key_sentences : List Str)
    (type_specific action_focused mt : Str) : Str :=
  let unique := survivingCandidates bart key_sentences type_specific action_focused
  if unique.isEmpty then fallbackContextFor mt else mergedSummary unique mt

/-- `ensemble_summarize` (production path): the BART strategy is additionally
wrapped in a `try` whose handler sets the candidate to `""`; in the embedding
`_enhanced_bart_summarize` is total, so that handler is dead. -/
def ensemble_summarize (summarizer : Option Str) (emb : Option (Str → Str → ℚ))
    (now : Nat) (transcript mt : Str) : Str :=
  let bart := enhanced_bart_summarize summarizer transcript mt
  let keys := extract_key_sentences_realistic transcript
  let type_s := create_type_specific_summary transcript mt
  let action_s := create_action_focused_summary emb now transcript
  realistic_combination bart keys type_s action_s mt

/-- Modelled from the spec: priority classification as the spec words it —
"transcript-wide occurrences weighted at 0.5× task-local occurrences", i.e.
task-local weight `1` and transcript weight `0.5` — with the thresholds and
default of §4.3 step 4. For comparison with `determine_priority_worldclass`,
whose task-local weight is `2` (so transcript hits are `0.25×` task hits). -/
def determine_priority_spec (task transcript : Str) : Str :=
  let high_score : ℚ := (countPresent high_priority_keywords (pyLower task) : ℚ) * 1
      + (countPresent high_priority_keywords (pyLower transcript) : ℚ) * 0.5
  let low_score : ℚ := (countPresent low_priority_keywords (pyLower task) : ℚ) * 1
      + (countPresent low_priority_keywords (pyLower transcript) : ℚ) * 0.5
  if high_score > low_score ∧ high_score > 1 then str "high"
  else if low_score > high_score ∧ low_score > 1 then str "low"
  else str "medium"

/-- The weighted high score of `_determine_priority_worldclass`, named for the
claim C5 characterisation: task occurrences weigh `2`, transcript occurrences
`0.5`. -/
def weighted_high_score (task transcript : Str) : ℚ :=
  (countPresent high_priority_keywords (pyLower task) : ℚ) * 2
    + (countPresent high_priority_keywords (pyLower transcript) : ℚ) * 0.5

/-- The weighted low score of `_determine_priority_worldclass`. -/
def weighted_low_score (task transcript : Str) : ℚ :=
  (countPresent low_priority_keywords (pyLower task) : ℚ) * 2
    + (countPresent low_priority_keywords (pyLower transcript) : ℚ) * 0.5

/-- The id-free view of an action item: the fields the idempotence claim
compares across runs (`id` is timestamp-derived and may differ). -/
def itemFields (a : ActionItem) : Str × Str × Str × Str :=
  (a.task, a.priority, a.assignee, a.due_date)

/-! ### Concrete inputs used by the counterexamples and witnesses -/

/-- 20 filler words: word count 20, so the source's density at
`duration = 1` minute is `20 / (1/60) = 1200` while words-per-minute is `20`. -/
def zzT : Str := str "zz zz zz zz zz zz zz zz zz zz zz zz zz zz zz zz zz zz zz zz"

/-- Transcript whose `need to`/`will`/`prepare` patterns yield two task pairs
with lexical Jaccard similarity `5/7 > 0.7`. -/
def cexT4 : Str :=
  str "we need to prepare the big quarterly report today. we will prepare the big quarterly report soon"

/-- An embedding collaborator that maps distinct texts to orthogonal unit
vectors: cosine similarity `1` on identical inputs and `0` otherwise, so no
distinct pair exceeds the `0.8` duplicate threshold. -/
def embOrtho : Str → Str → ℚ := fun a b => if a = b then 1 else 0

def A4 : Str := str "prepare the big quarterly report today"
def B4 : Str := str "prepare the big quarterly report soon"
def C4tail : Str := str "the big quarterly report today"
def D4tail : Str := str "the big quarterly report soon"

/-- Task with one low-priority phrase (`when possible`) and no high-priority
vocabulary. -/
def cexTask5 : Str := str "update the docs when possible"

/-- Transcript containing that task plus the high-priority words `urgent`
(counted twice, the source list repeats it), `critical` and `important`:
4 high-keyword hits and 1 low-keyword hit transcript-wide. -/
def cexTr5 : Str := str "urgent critical important update the docs when possible"

/-- Task phrase containing `urgent` and no low-priority vocabulary. -/
def urgTask5 : Str := str "finish the urgent report"

/-- Transcript whose only urgency mention is the task itself. -/
def urgTr5 : Str := str "alice said zz finish the urgent report zz"

def parts6 : List Str := [str "Bob", str "Sarah"]
def task6 : Str := str "prepare the financial analysis"

/-- First sentence names Sarah and carries the task; `Bob slept` is under the
11-character floor of the context scan, and no speaker label `Name:` occurs. -/
def tr6 : Str := str "Sarah will prepare the financial analysis soon. Bob slept"

/-- An embedding collaborator with constant cosine similarity `1/2`
(written `mkRat 1 2 = 0.5`). -/
def embHalf : Str → Str → ℚ := fun _ _ => mkRat 1 2

/-- One sentence over 30 characters containing two decision-family keywords
(`decided`, `agreed`) and one financial keyword (`budget`). -/
def cexT8 : Str := str "the team decided and agreed on the new budget plan for next year"

/-! ## Theorems -/

theorem nonneg_ite_min (c : Prop) [Decidable c] (x y : ℚ) (hx : c → 0 ≤ x) (hy : 0 ≤ y) :
    0 ≤ if c then min x y else 0 := by
  split
  · rename_i hc
    exact le_min (hx hc) hy
  · exact le_refl 0

/-- The density adjustment of `calculate_health_score` never subtracts more
than `0.8`, whatever the density `ρ`. -/
theorem density_adj_ge (d : ℕ) (ρ : ℚ) :
    (-0.8 : ℚ) ≤ if d > 0 then (if ρ > 25 then min (ρ / 12) 2.0
      else if ρ < 15 then -0.8 else 0) else 0 := by
  split
  · split
    · rename_i hρ
      have h0 : (0:ℚ) ≤ ρ / 12 := by
        have : (0:ℚ) ≤ ρ := by linarith
        positivity
      have : (0:ℚ) ≤ min (ρ / 12) 2.0 := le_min h0 (by norm_num)
      linarith
    · split
      · norm_num
      · norm_num
  · norm_num

/-- Shape bound shared by C1 and C10: the sequential `score +=` updates of
`calculate_health_score` with each adjustment bounded below. -/
theorem health_score_shape (A B C D E F G : ℚ) (hA : 0 ≤ A) (hB : 0 ≤ B) (hC : 0 ≤ C)
    (hD : -0.8 ≤ D) (hE : 0 ≤ E) (hF : 0 ≤ F) (hG : 0 ≤ G) :
    (21/5 : ℚ) ≤ min (5.0 + A + B + C + D + E + F + G) 10.0 := by
  have : (21/5 : ℚ) ≤ 5.0 + A + B + C + D + E + F + G := by linarith
  exact le_min this (by norm_num)

/-- Lower bound `4.2` for the health score, for every input (shared by the
claims C1 and C10). -/
theorem health_score_lower (emb : Option (Str → Str → ℚ)) (now : ℕ) (t : Str)
    (d pc : ℕ) : (21/5 : ℚ) ≤ calculate_health_score emb now t d pc := by
  unfold calculate_health_score
  refine health_score_shape _ _ _ _ _ _ _
    (nonneg_ite_min _ _ _ (fun _ => by positivity) (by norm_num))
    (le_min (by positivity) (by norm_num))
    (nonneg_ite_min _ _ _ ?_ (by norm_num))
    (density_adj_ge _ _)
    (le_min (by positivity) (by norm_num))
    (nonneg_ite_min _ _ _ (fun _ => by positivity) (by norm_num))
    (le_min (by positivity) (by norm_num))
  intro hpc
  have h2 : (2:ℚ) < (pc : ℚ) := by exact_mod_cast hpc
  nlinarith

/-- Upper clamp: the final `min(score, 10.0)`. -/
theorem health_score_upper (emb : Option (Str → Str → ℚ)) (now : ℕ) (t : Str)
    (d pc : ℕ) : calculate_health_score emb now t d pc ≤ 10 := by
  unfold calculate_health_score
  refine le_trans (min_le_right _ (10.0 : ℚ)) ?_
  norm_num

/-- C1: for every transcript, every positive duration and every participant
count, `calculate_health_score` returns a value in `[0, 10]`: the only
negative adjustment is the fixed `-0.8` low-density penalty, which cannot pull
the base score of `5.0` below `0`, and the result is clamped at `10.0`. -/
theorem C1_health_score_in_range (emb : Option (Str → Str → ℚ)) (now : ℕ)
    (t : Str) (d pc : ℕ) (hd : 0 < d) :
    0 ≤ calculate_health_score emb now t d pc ∧
      calculate_health_score emb now t d pc ≤ 10 :=
  ⟨le_trans (by norm_num) (health_score_lower emb now t d pc),
   health_score_upper emb now t d pc⟩

theorem C1_health_score_in_range_witness :
    0 ≤ calculate_health_score none 0 zzT 1 0 ∧
      calculate_health_score none 0 zzT 1 0 ≤ 10 :=
  C1_health_score_in_range none 0 zzT 1 0 (by norm_num)

/-- C10: the health score is always at least `4.2`: every adjustment other
than the fixed `-0.8` low-density penalty is non-negative, so from the base
`5.0` the result stays at or above `4.2` and the caller-side lower clamp at
`0` never changes the value. -/
theorem C10_health_score_ge (emb : Option (Str → Str → ℚ)) (now : ℕ)
    (t : Str) (d pc : ℕ) (hd : 0 < d) :
    (21/5 : ℚ) ≤ calculate_health_score emb now t d pc :=
  health_score_lower emb now t d pc

theorem C10_health_score_ge_witness :
    (21/5 : ℚ) ≤ calculate_health_score none 0 zzT 2 3 :=
  C10_health_score_ge none 0 zzT 2 3 (by norm_num)

/-- C7 (code bug): at a transcript of 20 words, duration 1 minute and no
participants, the words-per-minute density of the claim (and of the source's
own `# words per minute` comment) is `20`, inside `[15, 25]`, so no density
adjustment should apply and the score should stay at `5.0`; the code instead
computes `20 / (1/60) = 1200`, treats the meeting as high-density and adds the
capped bonus `2.0`, returning `7.0`. -/
theorem C7_density_divergence :
    calculate_health_score none 0 zzT 1 0 = 7 ∧
      calculate_health_score_spec_density none 0 zzT 1 0 = 5 := by
  have ha : (extract_action_items none 0 zzT []).length = 0 := by decide
  have hd : countPresent health_decision_keywords (pyLower zzT) = 0 := by decide
  have he : countPresent engagement_keywords (pyLower zzT) = 0 := by decide
  have hq : zzT.count '?' = 0 := by decide
  have hs : specificityCount zzT = 0 := by decide
  have hw : (pySplit zzT).length = 20 := by decide
  constructor
  · simp only [calculate_health_score, ha, hd, he, hq, hs, hw]
    norm_num [min_def]
  · simp only [calculate_health_score_spec_density, ha, hd, he, hq, hs, hw]
    norm_num [min_def]

/-- C2 counterexample: on the 2-character transcript `"Hi"`, `_validate_input`
does raise `ValueError("Transcript too short (minimum 10 characters)")`, but
`summarize_meeting` catches it and returns the string `"Error: …"` — the error
is downgraded into a returned value instead of propagating to the caller. -/
theorem C2_counterexample :
    validate_input (str "Hi") (str "executive") =
      Except.error (str "Transcript too short (minimum 10 characters)") ∧
    summarize_meeting none (str "Hi") (str "executive") =
      str "Error: Transcript too short (minimum 10 characters)" := by
  constructor
  · rfl
  · rfl

/-- C2 as amended: for every transcript whose stripped length is under 10
characters (or whose meeting type is unrecognized), `_validate_input` raises a
`ValueError` before any scoring, and `summarize_meeting` catches that error
and returns the string `"Error: " ++ message` — no scoring happens and no
partial summary is produced, but the error is returned as a value, not
re-raised to the caller. -/
theorem C2_error_string_returned (t mt : Str) (summarizer : Option Str)
    (h : (pyStrip t).length < 10 ∨ valid_types.contains mt = false) :
    ∃ msg, validate_input t mt = Except.error msg ∧
      summarize_meeting summarizer t mt = str "Error: " ++ msg := by
  by_cases h1 : pyStrip t = []
  · refine ⟨str "Transcript cannot be empty", ?_, ?_⟩
    · simp [validate_input, h1]
    · simp [summarize_meeting, validate_input, h1]
  · by_cases h2 : (pyStrip t).length < 10
    · refine ⟨str "Transcript too short (minimum 10 characters)", ?_, ?_⟩
      · simp [validate_input, h1, h2]
      · simp [summarize_meeting, validate_input, h1, h2]
    · have h3 : valid_types.contains mt = false := by
        rcases h with h | h
        · exact absurd h h2
        · exact h
      have h4 : mt ∉ valid_types := by simpa using h3
      refine ⟨invalid_type_message, ?_, ?_⟩
      · simp [validate_input, h1, h2, h3, h4]
      · simp [summarize_meeting, validate_input, h1, h2, h3, h4]

theorem C2_error_string_returned_witness :
    ∃ msg, validate_input (str "Hi") (str "executive") = Except.error msg ∧
      summarize_meeting none (str "Hi") (str "executive") = str "Error: " ++ msg :=
  C2_error_string_returned (str "Hi") (str "executive") none (Or.inl (by decide))

/-- `_determine_priority_worldclass` as a single conditional over the two
weighted scores (both arms of its trailing medium-keyword check return
`"medium"`, so that check collapses). -/
theorem determine_priority_eq_ite (task transcript : Str) :
    determine_priority_worldclass task transcript =
      (if weighted_high_score task transcript > weighted_low_score task transcript ∧
          weighted_high_score task transcript > 1 then str "high"
       else if weighted_low_score task transcript > weighted_high_score task transcript ∧
          weighted_low_score task transcript > 1 then str "low"
       else str "medium") := by
  unfold determine_priority_worldclass weighted_high_score weighted_low_score
  simp only [ite_self]

/-- C5 counterexample: for the task `"update the docs when possible"` inside
the transcript `"urgent critical important update the docs when possible"`
(4 high-keyword hits and 1 low-keyword hit transcript-wide, 0 high and 1 low
task-local), the code classifies `"low"` (task weight 2: low side
`1·2 + 1·0.5 = 2.5` beats high side `0·2 + 4·0.5 = 2`), while the spec's
weighting — transcript at `0.5×` task-local — classifies `"high"`
(`0 + 4·0.5 = 2` beats `1 + 1·0.5 = 1.5`). -/
theorem C5_counterexample :
    determine_priority_worldclass cexTask5 cexTr5 = str "low" ∧
      determine_priority_spec cexTask5 cexTr5 = str "high" := by
  have hh : countPresent high_priority_keywords (pyLower cexTask5) = 0 := by decide
  have hc : countPresent high_priority_keywords (pyLower cexTr5) = 4 := by decide
  have lh : countPresent low_priority_keywords (pyLower cexTask5) = 1 := by decide
  have lc : countPresent low_priority_keywords (pyLower cexTr5) = 1 := by decide
  constructor
  · simp only [determine_priority_worldclass, hh, hc, lh, lc]
    norm_num [ite_self]
  · simp only [determine_priority_spec, hh, hc, lh, lc]
    norm_num

/-- C5 as amended: priority classification follows the weighted-count rule
with task-local occurrences weighted `2` and transcript-wide occurrences
`0.5` (i.e. transcript hits count `0.25×` a task hit, not the `0.5×` the spec
states): `"high"` iff the weighted high score beats the weighted low score and
exceeds `1`, `"low"` under the symmetric condition, `"medium"` otherwise; and
the urgent-scenario instance classifies `"high"`. -/
theorem C5_priority_rule :
    (∀ task transcript : Str,
      determine_priority_worldclass task transcript = str "high" ↔
        (weighted_high_score task transcript > weighted_low_score task transcript ∧
         weighted_high_score task transcript > 1)) ∧
    (∀ task transcript : Str,
      determine_priority_worldclass task transcript = str "low" ↔
        (weighted_low_score task transcript > weighted_high_score task transcript ∧
         weighted_low_score task transcript > 1)) ∧
    determine_priority_worldclass urgTask5 urgTr5 = str "high" := by
  refine ⟨?_, ?_, ?_⟩
  · intro task transcript
    rw [determine_priority_eq_ite]
    constructor
    · intro h
      by_cases h1 : weighted_high_score task transcript > weighted_low_score task transcript ∧
          weighted_high_score task transcript > 1
      · exact h1
      · rw [if_neg h1] at h
        split at h
        · exact absurd h (by decide)
        · exact absurd h (by decide)
    · intro h1
      rw [if_pos h1]
  · intro task transcript
    rw [determine_priority_eq_ite]
    constructor
    · intro h
      by_cases h1 : weighted_high_score task transcript > weighted_low_score task transcript ∧
          weighted_high_score task transcript > 1
      · rw [if_pos h1] at h
        exact absurd h (by decide)
      · rw [if_neg h1] at h
        by_cases h2 : weighted_low_score task transcript > weighted_high_score task transcript ∧
            weighted_low_score task transcript > 1
        · exact h2
        · rw [if_neg h2] at h
          exact absurd h (by decide)
    · intro h2
      have h1 : ¬ (weighted_high_score task transcript > weighted_low_score task transcript ∧
          weighted_high_score task transcript > 1) := by
        rintro ⟨hgt, -⟩
        exact absurd h2.1 (not_lt.mpr (le_of_lt hgt))
      rw [if_neg h1, if_pos h2]
  · have hh : countPresent high_priority_keywords (pyLower urgTask5) = 2 := by decide
    have hc : countPresent high_priority_keywords (pyLower urgTr5) = 2 := by decide
    have lh : countPresent low_priority_keywords (pyLower urgTask5) = 0 := by decide
    have lc : countPresent low_priority_keywords (pyLower urgTr5) = 0 := by decide
    simp only [determine_priority_worldclass, hh, hc, lh, lc]
    norm_num

/-- C6 (code bug): with a working embedding collaborator (constant cosine
`1/2`), steps (a) fails (no participant name inside the task), the `try`
block's context scan picks `"Sarah"` from the most similar qualifying
sentence — but that `best_assignee` is never returned — and, with no speaker
label in the transcript, the function falls through to step (d) and returns
the first listed participant `"Bob"`. The computed-and-discarded value and the
returned value differ. -/
theorem C6_assignee_divergence :
    extract_assignee_worldclass (some embHalf) task6 parts6 tr6 = str "Bob" ∧
      assigneeContextBest embHalf task6 parts6 tr6 = some (str "Sarah") := by
  constructor
  · decide
  · decide

/-- C8 counterexample: one 64-character sentence containing the two
decision-family keywords `decided` and `agreed` produces two
`"Decision made: "` insights (the `break` only leaves the sentence loop, not
the keyword loop), so more than one insight of the decision family is emitted
in a single call. -/
theorem C8_counterexample :
    extract_key_insights cexT8 =
      [str "Decision made: " ++ cexT8, str "Decision made: " ++ cexT8,
       str "Financial insight: " ++ cexT8] ∧
    1 < (extract_key_insights cexT8).countP
        (fun s => (str "Decision made: ").isPrefixOf s) := by
  constructor
  · decide
  · decide

theorem findSome?_imp_form {α β : Type} (g : α → Option β) :
    ∀ (l : List α) (b : β), l.findSome? g = some b → ∃ a, g a = some b := by
  intro l
  induction l with
  | nil => intro b h; simp [List.findSome?] at h
  | cons x t ih =>
    intro b h
    rw [List.findSome?_cons] at h
    cases hg : g x with
    | some v =>
      rw [hg] at h
      exact ⟨x, hg.trans h⟩
    | none =>
      rw [hg] at h
      exact ih b h

/-- Every insight a family block emits carries that family's tag as a prefix. -/
theorem familyInsights_form (kws : List Str) (tagPre t x : Str)
    (hx : x ∈ familyInsights kws tagPre t) : ∃ s, x = tagPre ++ s := by
  unfold familyInsights at hx
  rcases List.mem_filterMap.mp hx with ⟨k, -, hk⟩
  split at hk
  · rcases findSome?_imp_form _ _ _ hk with ⟨sentence, hs⟩
    split at hs
    · exact ⟨pyStrip sentence, (Option.some.injEq _ _ ▸ hs).symm⟩
    · exact absurd hs (by simp)
  · exact absurd hk (by simp)

theorem filterMap_length_le_filter {α β : Type} (f : α → Option β) (p : α → Bool)
    (h : ∀ a, (f a).isSome = true → p a = true) :
    ∀ l : List α, (l.filterMap f).length ≤ (l.filter p).length := by
  intro l
  induction l with
  | nil => simp
  | cons a t ih =>
    rw [List.filterMap_cons, List.filter_cons]
    cases hf : f a with
    | none =>
      refine le_trans ih ?_
      split
      · simp
      · exact le_refl _
    | some b =>
      have hp : p a = true := h a (by simp [hf])
      rw [if_pos hp]
      simpa using ih

/-- A string tagged with a prefix whose first character differs from `'D'`
cannot carry the decision tag. -/
theorem decision_tag_not_of_append (pre x : Str) (c : Char) (hc : c ≠ 'D')
    (hpre : ∃ r, pre = c :: r) :
    ((str "Decision made: ").isPrefixOf (pre ++ x)) = false := by
  rcases hpre with ⟨r, rfl⟩
  simp [str, List.isPrefixOf, hc.symm]

theorem mem_ite_list {α : Type} {c : Prop} [Decidable c] {x : α} {l : List α}
    (h : x ∈ (if c then l else [])) : x ∈ l := by
  split at h
  · exact h
  · exact absurd h (by simp)

theorem mem_ite_padded {α : Type} {c : Prop} [Decidable c] {x : α} {l p : List α}
    (h : x ∈ (if c then l ++ p else l)) : x ∈ l ++ p := by
  split at h
  · exact h
  · exact List.mem_append.mpr (Or.inl h)

theorem create_real_insights_no_decision (t : Str) :
    (create_real_insights t).countP
      (fun s => (str "Decision made: ").isPrefixOf s) = 0 := by
  apply List.countP_eq_zero.mpr
  intro x hx
  simp only [create_real_insights] at hx
  have hx' := mem_ite_padded (List.mem_of_mem_take hx)
  clear hx
  simp only [List.mem_append] at hx'
  rcases hx' with (((hh | hh) | hh) | hh) | hh
  · rcases List.mem_filterMap.mp hh with ⟨wc, -, hwc⟩
    split at hwc
    · have hform := (Option.some.injEq _ _).mp hwc
      subst hform
      intro hcontra
      have : ((str "Decision made: ").isPrefixOf
          (str "Key theme: " ++ pyTitle wc.1 ++ str " (mentioned "
            ++ (toString wc.2).toList ++ str " times)")) = false := rfl
      rw [this] at hcontra
      exact Bool.false_ne_true hcontra
    · exact absurd hwc (by simp)
  · rcases List.mem_singleton.mp (mem_ite_list hh) with rfl
    decide
  · rcases List.mem_singleton.mp (mem_ite_list hh) with rfl
    decide
  · rcases List.mem_singleton.mp (mem_ite_list hh) with rfl
    decide
  · simp only [List.mem_cons, List.not_mem_nil, or_false] at hh
    rcases hh with rfl | rfl
    · decide
    · decide

theorem family_no_decision (kws : List Str) (tagPre t : Str)
    (htag : ∀ s, ((str "Decision made: ").isPrefixOf (tagPre ++ s)) = false) :
    (familyInsights kws tagPre t).countP
      (fun s => (str "Decision made: ").isPrefixOf s) = 0 := by
  apply List.countP_eq_zero.mpr
  intro x hx
  rcases familyInsights_form kws tagPre t x hx with ⟨s, rfl⟩
  simp [htag s]

/-- C8 as amended: insight extraction emits at most one insight per family
*keyword* — for each decision keyword present in the transcript at most one
`"Decision made: "` insight arises (so the decision-family count is bounded by
the number of its keywords present, not by one), and the returned list is
truncated to at most 5 entries. -/
theorem C8_insights_per_keyword (t : Str) :
    (extract_key_insights t).length ≤ 5 ∧
    (extract_key_insights t).countP
        (fun s => (str "Decision made: ").isPrefixOf s) ≤
      (insight_decision_keywords.filter (fun k => pyIn k (pyLower t))).length := by
  simp only [extract_key_insights]
  split
  · constructor
    · unfold create_real_insights
      exact List.length_take_le _ _
    · rw [create_real_insights_no_decision]
      exact Nat.zero_le _
  · constructor
    · exact List.length_take_le _ _
    · refine le_trans ((List.take_sublist _ _).countP_le _) ?_
      rw [List.countP_append, List.countP_append, List.countP_append]
      rw [family_no_decision insight_risk_keywords (str "Risk identified: ") t
          (fun s => rfl),
        family_no_decision insight_opportunity_keywords (str "Opportunity: ") t
          (fun s => rfl),
        family_no_decision insight_financial_keywords (str "Financial insight: ") t
          (fun s => rfl)]
      simp only [Nat.add_zero]
      refine le_trans (List.countP_le_length _) ?_
      unfold familyInsights
      refine filterMap_length_le_filter _ _ ?_ _
      intro k hk
      by_cases h : pyIn k (pyLower t) = true
      · exact h
      · rw [if_neg h] at hk
        simp at hk

/-- Under the orthogonal embedding collaborator, the duplicate test holds
exactly for identical texts. -/
theorem similar_ortho (x y : Str) :
    is_similar_task_advanced (some embOrtho) x y = decide (x = y) := by
  rcases eq_or_ne x y with h | h
  · subst h
    have h1 : embOrtho x x > 0.8 := by
      simp only [embOrtho, if_pos rfl]
      norm_num
    simp [is_similar_task_advanced, h1]
  · have h0 : ¬ embOrtho x y > 0.8 := by
      simp only [embOrtho, if_neg h]
      norm_num
    simp [is_similar_task_advanced, h0, h]

theorem cexT4_prio_A : determine_priority_worldclass A4 cexT4 = str "medium" := by
  have hh : countPresent high_priority_keywords (pyLower A4) = 0 := by decide
  have hc : countPresent high_priority_keywords (pyLower cexT4) = 1 := by decide
  have lh : countPresent low_priority_keywords (pyLower A4) = 0 := by decide
  have lc : countPresent low_priority_keywords (pyLower cexT4) = 0 := by decide
  simp only [determine_priority_worldclass, hh, hc, lh, lc]
  norm_num [ite_self]

theorem cexT4_prio_B : determine_priority_worldclass B4 cexT4 = str "medium" := by
  have hh : countPresent high_priority_keywords (pyLower B4) = 0 := by decide
  have hc : countPresent high_priority_keywords (pyLower cexT4) = 1 := by decide
  have lh : countPresent low_priority_keywords (pyLower B4) = 0 := by decide
  have lc : countPresent low_priority_keywords (pyLower cexT4) = 0 := by decide
  simp only [determine_priority_worldclass, hh, hc, lh, lc]
  norm_num [ite_self]

theorem cexT4_prio_C : determine_priority_worldclass C4tail cexT4 = str "medium" := by
  have hh : countPresent high_priority_keywords (pyLower C4tail) = 0 := by decide
  have hc : countPresent high_priority_keywords (pyLower cexT4) = 1 := by decide
  have lh : countPresent low_priority_keywords (pyLower C4tail) = 0 := by decide
  have lc : countPresent low_priority_keywords (pyLower cexT4) = 0 := by decide
  simp only [determine_priority_worldclass, hh, hc, lh, lc]
  norm_num [ite_self]

theorem cexT4_prio_D : determine_priority_worldclass D4tail cexT4 = str "medium" := by
  have hh : countPresent high_priority_keywords (pyLower D4tail) = 0 := by decide
  have hc : countPresent high_priority_keywords (pyLower cexT4) = 1 := by decide
  have lh : countPresent low_priority_keywords (pyLower D4tail) = 0 := by decide
  have lc : countPresent low_priority_keywords (pyLower cexT4) = 0 := by decide
  simp only [determine_priority_worldclass, hh, hc, lh, lc]
  norm_num [ite_self]

/-- C4 counterexample: with a working embedding collaborator mapping distinct
texts to orthogonal vectors (cosine `0 ≤ 0.8`), the transcript `cexT4` yields
four action items, and the first two returned tasks have lexical Jaccard
similarity `5/7 > 0.7` — the pairwise-Jaccard bound of the claim fails when
deduplication runs in embedding mode. -/
theorem C4_counterexample :
    (extract_action_items (some embOrtho) 0 cexT4 []).map (fun a => a.task) =
      [A4, B4, C4tail, D4tail] ∧
    lexicalSimilarity A4 B4 > 0.7 := by
  constructor
  · have hcand : actionCandidates cexT4 = [A4, B4, C4tail, D4tail] := by decide
    have hsA : pyStrip A4 = A4 := by decide
    have hsB : pyStrip B4 = B4 := by decide
    have hsC : pyStrip C4tail = C4tail := by decide
    have hsD : pyStrip D4tail = D4tail := by decide
    simp only [extract_action_items, hcand]
    rw [buildActionItems]
    simp only [hsA]
    rw [if_neg (by decide), if_neg (by decide)]
    rw [buildActionItems]
    simp only [hsB]
    rw [if_neg (by decide), if_neg (by simp only [similar_ortho]; decide)]
    rw [buildActionItems]
    simp only [hsC]
    rw [if_neg (by decide), if_neg (by simp only [similar_ortho]; decide)]
    rw [buildActionItems]
    simp only [hsD]
    rw [if_neg (by decide), if_neg (by simp only [similar_ortho]; decide)]
    rw [buildActionItems]
    simp only [cexT4_prio_A, cexT4_prio_B, cexT4_prio_C, cexT4_prio_D]
    decide
  · have h1 : ((pySplit (pyLower A4)).toFinset ∩ (pySplit (pyLower B4)).toFinset).card = 5 := by
      decide
    have h2 : ((pySplit (pyLower A4)).toFinset ∪ (pySplit (pyLower B4)).toFinset).card = 7 := by
      decide
    have hne : ¬ ((pySplit (pyLower A4)).toFinset ∪ (pySplit (pyLower B4)).toFinset) = ∅ := by
      decide
    simp only [lexicalSimilarity, h1, h2, if_neg hne]
    norm_num

theorem lexicalSimilarity_comm (a b : Str) :
    lexicalSimilarity a b = lexicalSimilarity b a := by
  simp only [lexicalSimilarity]
  rw [Finset.inter_comm, Finset.union_comm]

/-- The dedup loop invariant: every kept item was checked against all earlier
kept items, so the accumulated list is pairwise non-similar. -/
theorem build_pairwise (emb : Option (Str → Str → ℚ)) (now : ℕ)
    (parts : List Str) (tr : Str) :
    ∀ (cands : List Str) (acc : List ActionItem),
      acc.Pairwise (fun a b => is_similar_task_advanced emb a.task b.task = false) →
      (buildActionItems emb now parts tr cands acc).Pairwise
        (fun a b => is_similar_task_advanced emb a.task b.task = false) := by
  intro cands
  induction cands with
  | nil =>
    intro acc h
    simpa [buildActionItems] using h
  | cons m ms ih =>
    intro acc h
    rw [buildActionItems]
    by_cases h10 : (pyStrip m).length < 10
    · rw [if_pos h10]
      exact ih acc h
    · rw [if_neg h10]
      by_cases hdup :
          (acc.any fun it => is_similar_task_advanced emb it.task (pyStrip m)) = true
      · rw [if_pos hdup]
        exact ih acc h
      · rw [if_neg hdup]
        apply ih
        rw [List.pairwise_append]
        refine ⟨h, List.pairwise_singleton _ _, ?_⟩
        intro a ha b hb
        rcases List.mem_singleton.mp hb with rfl
        show is_similar_task_advanced emb a.task (pyStrip m) = false
        by_contra hcontra
        rw [Bool.not_eq_false] at hcontra
        exact hdup (List.any_eq_true.mpr ⟨a, ha, hcontra⟩)

theorem priorityRank_cases (p : Str) :
    priorityRank p = 3 ∨ priorityRank p = 2 ∨ priorityRank p = 1 := by
  unfold priorityRank
  split
  · exact Or.inl rfl
  · split
    · exact Or.inr (Or.inl rfl)
    · split
      · exact Or.inr (Or.inr rfl)
      · exact Or.inr (Or.inl rfl)

/-- `sortByPriority` permutes its input: the three rank buckets partition the
list because `priorityRank` only takes the values 3, 2 and 1. -/
theorem sortByPriority_perm (l : List ActionItem) : List.Perm (sortByPriority l) l := by
  unfold sortByPriority
  have h3 := List.filter_append_perm (fun it => priorityRank it.priority = 3) l
  refine List.Perm.trans ?_ h3
  rw [List.append_assoc]
  refine List.Perm.append_left _ ?_
  have h2 := List.filter_append_perm (fun it => priorityRank it.priority = 2)
    (l.filter (fun it => !(decide (priorityRank it.priority = 3))))
  refine List.Perm.trans ?_ h2
  rw [List.filter_filter, List.filter_filter]
  have e2 : l.filter (fun a => decide (priorityRank a.priority = 2) &&
        !(decide (priorityRank a.priority = 3))) =
      l.filter (fun a => priorityRank a.priority = 2) := by
    apply List.filter_congr
    intro a _
    rcases priorityRank_cases a.priority with hr | hr | hr <;> simp [hr]
  have e1 : l.filter (fun a => !(decide (priorityRank a.priority = 2)) &&
        !(decide (priorityRank a.priority = 3))) =
      l.filter (fun a => priorityRank a.priority = 1) := by
    apply List.filter_congr
    intro a _
    rcases priorityRank_cases a.priority with hr | hr | hr <;> simp [hr]
  rw [e2, e1]

/-- C4 as amended: the returned list always has at most 5 items, and the
pairwise lexical-Jaccard bound `≤ 0.7` holds in the lexical-fallback
deduplication mode (embedding collaborator failed); in embedding mode the
duplicate test is cosine `> 0.8` instead and the Jaccard bound is not
guaranteed (see the counterexample). -/
theorem C4_bounded_and_dissimilar (emb : Option (Str → Str → ℚ)) (now : ℕ)
    (t : Str) (parts : List Str) :
    (extract_action_items emb now t parts).length ≤ 5 ∧
    (extract_action_items none now t parts).Pairwise
      (fun a b => lexicalSimilarity a.task b.task ≤ 0.7) := by
  constructor
  · unfold extract_action_items
    exact List.length_take_le _ _
  · have hp := build_pairwise none now parts t (actionCandidates t) [] List.Pairwise.nil
    have hp' : (buildActionItems none now parts t (actionCandidates t) []).Pairwise
        (fun a b => lexicalSimilarity a.task b.task ≤ 0.7) := by
      refine hp.imp ?_
      intro a b hab
      unfold is_similar_task_advanced at hab
      exact not_lt.mp (of_decide_eq_false hab)
    have hsym : Symmetric (fun a b : ActionItem => lexicalSimilarity a.task b.task ≤ 0.7) := by
      intro a b h
      show lexicalSimilarity b.task a.task ≤ 0.7
      rwa [lexicalSimilarity_comm]
    have hperm := sortByPriority_perm (buildActionItems none now parts t (actionCandidates t) [])
    have hsorted := (hperm.pairwise_iff (fun hab => hsym hab)).mpr hp'
    exact hsorted.sublist (List.take_sublist _ _)

theorem ne_nil_append_left {l m : Str} (h : l ≠ []) : l ++ m ≠ [] := by
  intro hn
  exact h (List.append_eq_nil.mp hn).1

theorem fallbackContextFor_ne_nil (mt : Str) : fallbackContextFor mt ≠ [] := by
  unfold fallbackContextFor
  split_ifs <;> decide

theorem mergedSummary_ne_nil (u : List Str) (mt : Str) : mergedSummary u mt ≠ [] := by
  intro hn
  simp only [mergedSummary] at hn
  repeat' split at hn
  all_goals simp_all [List.append_eq_nil]

/-- C3: with the abstractive collaborator raising on every call, the ensemble
summary is never empty, and the meeting-type fallback template is returned
exactly when no candidate of the four strategies survives the gating and
deduplication (`survivingCandidates … = []`); otherwise the merged summary of
the survivors is returned. -/
theorem C3_ensemble_nonempty (t mt : Str) (emb : Option (Str → Str → ℚ))
    (now : ℕ) (ht : t ≠ []) :
    ensemble_summarize none emb now t mt ≠ [] ∧
    ((survivingCandidates (enhanced_bart_summarize none t mt)
        (extract_key_sentences_realistic t) (create_type_specific_summary t mt)
        (create_action_focused_summary emb now t) = [] ∧
      ensemble_summarize none emb now t mt = fallbackContextFor mt) ∨
     (survivingCandidates (enhanced_bart_summarize none t mt)
        (extract_key_sentences_realistic t) (create_type_specific_summary t mt)
        (create_action_focused_summary emb now t) ≠ [] ∧
      ensemble_summarize none emb now t mt = mergedSummary
        (survivingCandidates (enhanced_bart_summarize none t mt)
          (extract_key_sentences_realistic t) (create_type_specific_summary t mt)
          (create_action_focused_summary emb now t)) mt)) := by
  simp only [ensemble_summarize, realistic_combination]
  by_cases hemp : (survivingCandidates (enhanced_bart_summarize none t mt)
      (extract_key_sentences_realistic t) (create_type_specific_summary t mt)
      (create_action_focused_summary emb now t)).isEmpty = true
  · rw [if_pos hemp]
    have hnil : survivingCandidates (enhanced_bart_summarize none t mt)
        (extract_key_sentences_realistic t) (create_type_specific_summary t mt)
        (create_action_focused_summary emb now t) = [] := by
      simpa [List.isEmpty_iff] using hemp
    exact ⟨fallbackContextFor_ne_nil mt, Or.inl ⟨hnil, rfl⟩⟩
  · rw [if_neg hemp]
    have hne : survivingCandidates (enhanced_bart_summarize none t mt)
        (extract_key_sentences_realistic t) (create_type_specific_summary t mt)
        (create_action_focused_summary emb now t) ≠ [] := by
      intro hh
      exact hemp (by simp [hh])
    exact ⟨mergedSummary_ne_nil _ mt, Or.inr ⟨hne, rfl⟩⟩

theorem C3_ensemble_nonempty_witness :
    ensemble_summarize none none 0 (str "zz") (str "general") ≠ [] ∧
    ((survivingCandidates (enhanced_bart_summarize none (str "zz") (str "general"))
        (extract_key_sentences_realistic (str "zz"))
        (create_type_specific_summary (str "zz") (str "general"))
        (create_action_focused_summary none 0 (str "zz")) = [] ∧
      ensemble_summarize none none 0 (str "zz") (str "general") =
        fallbackContextFor (str "general")) ∨
     (survivingCandidates (enhanced_bart_summarize none (str "zz") (str "general"))
        (extract_key_sentences_realistic (str "zz"))
        (create_type_specific_summary (str "zz") (str "general"))
        (create_action_focused_summary none 0 (str "zz")) ≠ [] ∧
      ensemble_summarize none none 0 (str "zz") (str "general") = mergedSummary
        (survivingCandidates (enhanced_bart_summarize none (str "zz") (str "general"))
          (extract_key_sentences_realistic (str "zz"))
          (create_type_specific_summary (str "zz") (str "general"))
          (create_action_focused_summary none 0 (str "zz"))) (str "general"))) :=
  C3_ensemble_nonempty (str "zz") (str "general") none 0 (by decide)

theorem any_eq_of_map_task_eq {a1 : List ActionItem} (g : Str → Bool) :
    ∀ {a2 : List ActionItem},
      a1.map (fun a => a.task) = a2.map (fun a => a.task) →
      (a1.any fun it => g it.task) = (a2.any fun it => g it.task) := by
  induction a1 with
  | nil =>
    intro a2 h
    cases a2 with
    | nil => rfl
    | cons y s => simp at h
  | cons x t iht =>
    intro a2 h
    cases a2 with
    | nil => simp at h
    | cons y s =>
      simp only [List.map_cons, List.cons.injEq] at h
      rw [List.any_cons, List.any_cons, h.1, iht h.2]

/-- Two runs of the extraction loop with different timestamps build item
lists that agree on every field except the timestamp-derived `id`. -/
theorem build_map_fields (emb : Option (Str → Str → ℚ)) (parts : List Str)
    (tr : Str) :
    ∀ (cands : List Str) (n1 n2 : ℕ) (acc1 acc2 : List ActionItem),
      acc1.map itemFields = acc2.map itemFields →
      (buildActionItems emb n1 parts tr cands acc1).map itemFields =
        (buildActionItems emb n2 parts tr cands acc2).map itemFields := by
  intro cands
  induction cands with
  | nil =>
    intro n1 n2 a1 a2 h
    simpa [buildActionItems] using h
  | cons m ms ih =>
    intro n1 n2 a1 a2 h
    have htask : a1.map (fun a => a.task) = a2.map (fun a => a.task) := by
      have h1 := congrArg (List.map (fun p : Str × Str × Str × Str => p.1)) h
      simpa [List.map_map, itemFields, Function.comp] using h1
    rw [buildActionItems, buildActionItems]
    by_cases h10 : (pyStrip m).length < 10
    · rw [if_pos h10, if_pos h10]
      exact ih n1 n2 a1 a2 h
    · rw [if_neg h10, if_neg h10]
      have hany : (a1.any fun it => is_similar_task_advanced emb it.task (pyStrip m)) =
          (a2.any fun it => is_similar_task_advanced emb it.task (pyStrip m)) :=
        any_eq_of_map_task_eq (fun x => is_similar_task_advanced emb x (pyStrip m)) htask
      by_cases hdup : (a1.any fun it => is_similar_task_advanced emb it.task (pyStrip m)) = true
      · rw [if_pos hdup, if_pos (hany ▸ hdup)]
        exact ih n1 n2 a1 a2 h
      · rw [if_neg hdup, if_neg (hany ▸ hdup)]
        apply ih
        rw [List.map_append, List.map_append, h]
        rfl
    
/-- `sortByPriority` commutes with the id-free projection: the rank only reads
the priority field. -/
theorem sort_map_fields (l1 l2 : List ActionItem)
    (h : l1.map itemFields = l2.map itemFields) :
    (sortByPriority l1).map itemFields = (sortByPriority l2).map itemFields := by
  unfold sortByPriority
  have key : ∀ (k : Nat) (l : List ActionItem),
      (l.filter (fun it => priorityRank it.priority = k)).map itemFields =
        (l.map itemFields).filter (fun p => priorityRank p.2.1 = k) := by
    intro k l
    induction l with
    | nil => rfl
    | cons a t iht =>
      rw [List.map_cons, List.filter_cons, List.filter_cons]
      by_cases hk : priorityRank a.priority = k
      · rw [if_pos (by simpa using hk), if_pos (by simpa [itemFields] using hk)]
        rw [List.map_cons, iht]
      · rw [if_neg (by simpa using hk), if_neg (by simpa [itemFields] using hk)]
        exact iht
  simp only [List.map_append]
  rw [key, key, key, key, key, key, h]

/-- The id-free projection of `extract_action_items` does not depend on the
timestamp. -/
theorem extract_map_fields (emb : Option (Str → Str → ℚ)) (n1 n2 : ℕ)
    (t : Str) (parts : List Str) :
    (extract_action_items emb n1 t parts).map itemFields =
      (extract_action_items emb n2 t parts).map itemFields := by
  unfold extract_action_items
  rw [List.map_take, List.map_take]
  exact congrArg (List.take 5)
    (sort_map_fields _ _ (build_map_fields emb parts t (actionCandidates t) n1 n2 [] [] rfl))

/-- C9: two runs over identical inputs with deterministic collaborators give
the same health score and the same action-item task/priority/assignee/due-date
sequences; only the timestamp-derived ids may differ. -/
theorem C9_idempotent (emb : Option (Str → Str → ℚ)) (now1 now2 : ℕ)
    (t : Str) (parts : List Str) (d pc : ℕ) :
    calculate_health_score emb now1 t d pc = calculate_health_score emb now2 t d pc ∧
    (extract_action_items emb now1 t parts).map itemFields =
      (extract_action_items emb now2 t parts).map itemFields := by
  have hlen : (extract_action_items emb now1 t []).length =
      (extract_action_items emb now2 t []).length := by
    have h := congrArg List.length (extract_map_fields emb now1 now2 t [])
    simpa using h
  constructor
  · unfold calculate_health_score
    rw [hlen]
  · exact extract_map_fields emb now1 now2 t parts
